import Mathlib

/-!
Verification of the WorkOn REST client/mock-server repository
(`mock-server/mock_workon_server.py`, `python_client/workon_api.py`,
`python_client/workon_cli/workon_cli.py`).

The Python code is shallowly embedded: JSON values become an inductive
type, the two module-level dictionaries `requests_db` / `attachments_db`
become an explicit `ServerState` threaded through the handlers, Python
strings are Lean `String`s (operated on through their `List Char` data),
and uncaught Python exceptions are modelled with `Except Unit` and
surfaced by the handler wrappers as 500 responses, exactly as the
`try/except` blocks in the source do.  Nondeterministic inputs
(`datetime.now()`, `uuid.uuid4()`) are passed to the handlers as explicit
parameters.
-/

set_option maxRecDepth 10000

/-- JSON values, as produced by `request.get_json()` and consumed by
`jsonify`.  Object fields are an insertion-ordered association list,
mirroring Python's insertion-ordered `dict`; Python `None` and JSON
`null` are identified. -/
inductive JSON where
  | null : JSON
  | bool (b : Bool) : JSON
  | num (n : Int) : JSON
  | str (s : String) : JSON
  | arr (elems : List JSON) : JSON
  | obj (fields : List (String × JSON)) : JSON

mutual

/-- Structural equality of JSON values (Python `==` on parsed JSON). -/
def jsonBeq : JSON → JSON → Bool
  | JSON.null, JSON.null => true
  | JSON.bool a, JSON.bool b => a == b
  | JSON.num a, JSON.num b => a == b
  | JSON.str a, JSON.str b => a == b
  | JSON.arr as, JSON.arr bs => jsonListBeq as bs
  | JSON.obj as, JSON.obj bs => jsonFieldsBeq as bs
  | _, _ => false

def jsonListBeq : List JSON → List JSON → Bool
  | [], [] => true
  | x :: xs, y :: ys => jsonBeq x y && jsonListBeq xs ys
  | _, _ => false

def jsonFieldsBeq : List (String × JSON) → List (String × JSON) → Bool
  | [], [] => true
  | (k, v) :: xs, (k', v') :: ys => k == k' && jsonBeq v v' && jsonFieldsBeq xs ys
  | _, _ => false

end

theorem jsonBeq_iff_aux :
    ∀ n, ∀ a b : JSON, sizeOf a < n → (jsonBeq a b = true ↔ a = b) := by
  intro n
  induction n with
  | zero => intro a b h; exact absurd h (by omega)
  | succ n ih =>
    intro a b h
    have harr : ∀ (as bs : List JSON), sizeOf as < n →
        (jsonListBeq as bs = true ↔ as = bs) := by
      intro as
      induction as with
      | nil => intro bs _; cases bs <;> simp [jsonListBeq]
      | cons x xs ihx =>
        intro bs hs
        cases bs with
        | nil => simp [jsonListBeq]
        | cons y ys =>
          have h1 : sizeOf x < n := by
            have := List.sizeOf_lt_of_mem (List.mem_cons_self x xs)
            omega
          have h2 : sizeOf xs < n := by
            simp only [List.cons.sizeOf_spec] at hs; omega
          simp [jsonListBeq, ih x y h1, ihx ys h2]
    have hobj : ∀ (as bs : List (String × JSON)), sizeOf as < n →
        (jsonFieldsBeq as bs = true ↔ as = bs) := by
      intro as
      induction as with
      | nil => intro bs _; cases bs <;> simp [jsonFieldsBeq]
      | cons x xs ihx =>
        intro bs hs
        cases bs with
        | nil => simp [jsonFieldsBeq]
        | cons y ys =>
          obtain ⟨k, v⟩ := x
          obtain ⟨k', v'⟩ := y
          have h1 : sizeOf v < n := by
            have := List.sizeOf_lt_of_mem (List.mem_cons_self (k, v) xs)
            simp only [Prod.mk.sizeOf_spec] at this
            omega
          have h2 : sizeOf xs < n := by
            simp only [List.cons.sizeOf_spec] at hs; omega
          simp [jsonFieldsBeq, ih v v' h1, ihx ys h2, and_assoc]
    cases a <;> cases b <;> simp [jsonBeq]
    case arr.arr as bs =>
      have : sizeOf as < n := by
        simp only [JSON.arr.sizeOf_spec] at h; omega
      exact harr as bs this
    case obj.obj as bs =>
      have : sizeOf as < n := by
        simp only [JSON.obj.sizeOf_spec] at h; omega
      exact hobj as bs this

theorem jsonBeq_iff (a b : JSON) : jsonBeq a b = true ↔ a = b :=
  jsonBeq_iff_aux (sizeOf a + 1) a b (by omega)

instance : DecidableEq JSON := fun a b => decidable_of_iff _ (jsonBeq_iff a b)

/-- Python `d[k]` / `k in d` resolution on an association list: the first
binding wins (association lists here never carry duplicate keys, matching
Python dictionaries). -/
def dbLookup {α : Type} : List (String × α) → String → Option α
  | [], _ => none
  | (k, v) :: rest, key => if k = key then some v else dbLookup rest key

/-- Python `d[key] = v`: overwrite in place when the key exists (keeping
its position), append otherwise. -/
def dbInsert {α : Type} (db : List (String × α)) (key : String) (v : α) :
    List (String × α) :=
  if (dbLookup db key).isSome then
    db.map (fun p => if p.1 = key then (key, v) else p)
  else db ++ [(key, v)]

/-- Python `key in d` for a dictionary. -/
def hasKey (o : List (String × JSON)) (k : String) : Bool :=
  (dbLookup o k).isSome

/-- Python `d.get(k)` (default `None`) for a dictionary. -/
def getDv (o : List (String × JSON)) (k : String) : JSON :=
  (dbLookup o k).getD JSON.null

/-- Field lookup on a JSON value known to be an object (used on response
bodies the handlers themselves build). -/
def jget (j : JSON) (k : String) : Option JSON :=
  match j with
  | JSON.obj fs => dbLookup fs k
  | _ => none

/-- `jget` with Python's `d[k]`-style default of `None`. -/
def jgetD (j : JSON) (k : String) : JSON := (jget j k).getD JSON.null

/-- Python truthiness of a JSON value (`if payload:` etc.). -/
def pyTruthy : JSON → Bool
  | JSON.null => false
  | JSON.bool b => b
  | JSON.num n => decide (n ≠ 0)
  | JSON.str s => !s.data.isEmpty
  | JSON.arr xs => !xs.isEmpty
  | JSON.obj fs => !fs.isEmpty

/-- Substring test, Python `needle in haystack` on strings. -/
def isSubstr (needle hay : List Char) : Bool :=
  hay.tails.any (fun t => needle.isPrefixOf t)

/-- Python `k in v` where `v` is an arbitrary JSON value: key membership
for dicts, value membership for lists, substring test for strings, and a
`TypeError` (modelled as `.error ()`) for numbers, booleans and `None`. -/
def pyIn (k : String) : JSON → Except Unit Bool
  | JSON.obj fs => .ok (hasKey fs k)
  | JSON.arr xs => .ok (xs.contains (JSON.str k))
  | JSON.str s => .ok (isSubstr k.data s.data)
  | _ => .error ()

/-- Python `v.get(k)` where `v` is an arbitrary JSON value: dictionary
get with default `None`; an `AttributeError` (modelled as `.error ()`)
when `v` is not a dict. -/
def pyGet (v : JSON) (k : String) : Except Unit JSON :=
  match v with
  | JSON.obj fs => .ok ((dbLookup fs k).getD JSON.null)
  | _ => .error ()

/-- Python iteration `for x in v`: list elements, string characters (as
one-character strings), dict keys; `TypeError` otherwise. -/
def pyIter : JSON → Except Unit (List JSON)
  | JSON.arr xs => .ok xs
  | JSON.str s => .ok (s.data.map (fun c => JSON.str (String.mk [c])))
  | JSON.obj fs => .ok (fs.map (fun p => JSON.str p.1))
  | _ => .error ()

/-- `str.lower()` on a string (Python also lowercases non-ASCII
letters, which `Char.toLower` leaves unchanged — every value the code
passes through it is ASCII). -/
def pyLowerStr (s : String) : String := String.mk (s.data.map Char.toLower)

/-- Python `s.lower()` on an arbitrary value: ASCII lowercasing for
strings, `AttributeError` for everything else. -/
def pyLower : JSON → Except Unit String
  | JSON.str s => .ok (pyLowerStr s)
  | _ => .error ()

/- ## Key generation (`generate_request_key`) -/

/-- Python `str.split("-")`. -/
def splitOnDash : List Char → List (List Char)
  | [] => [[]]
  | c :: cs =>
    if c = '-' then [] :: splitOnDash cs
    else
      match splitOnDash cs with
      | s :: ss => (c :: s) :: ss
      | [] => [[c]]

/-- Python `s.startswith(pre)`. -/
def pyStartsWith (pre s : String) : Bool := pre.data.isPrefixOf s.data

/-- ASCII decimal digit test. -/
def isDigitChar (c : Char) : Bool := 48 ≤ c.toNat && c.toNat ≤ 57

/-- Python `int(s)` restricted to plain decimal numerals, the only form
of numeric key segment the server ever stores (Python's `int` also
accepts surrounding whitespace, an explicit sign and underscore
separators; no key in this system contains those). `none` models the
`ValueError` swallowed by the `try/except` in `generate_request_key`. -/
def parseNat? (cs : List Char) : Option Nat :=
  if cs ≠ [] ∧ cs.all isDigitChar then
    some (cs.foldl (fun a c => 10 * a + (c.toNat - 48)) 0)
  else none

/-- Decimal digit character of `d < 10`, as in Python's `str(n)`. -/
def digitChar : Nat → Char
  | 0 => '0' | 1 => '1' | 2 => '2' | 3 => '3' | 4 => '4'
  | 5 => '5' | 6 => '6' | 7 => '7' | 8 => '8' | _ => '9'

/-- Decimal digits, most significant first, with structural fuel (the
fuel never runs out when it starts at `n`, since `n / 10 < n`). -/
def natDigitsAux : Nat → Nat → List Char
  | 0, n => [digitChar n]
  | fuel + 1, n =>
    if n < 10 then [digitChar n]
    else natDigitsAux fuel (n / 10) ++ [digitChar (n % 10)]

/-- Decimal digits of `n`, most significant first (`str(n)` for a
nonnegative integer). -/
def natDigits (n : Nat) : List Char := natDigitsAux n n

/-- Python `str(n)` for a natural number. -/
def natRepr (n : Nat) : String := String.mk (natDigits n)

/-- The numeric value `generate_request_key` extracts from one stored
key: the second `"-"`-separated segment parsed as a number, provided the
key starts with `"RBGA-"`; `none` when the parse fails (the swallowed
exception). -/
def keyNum? (key : String) : Option Nat :=
  if pyStartsWith "RBGA-" key then
    match (splitOnDash key.data).get? 1 with
    | some seg => parseNat? seg
    | none => none
  else none

/-- The `max_num` loop of `generate_request_key` over the stored keys. -/
def maxKeyNum (keys : List String) : Nat :=
  keys.foldl (fun m k => match keyNum? k with | some n => max m n | none => m) 0

/-- `generate_request_key`: `"RBGA-"` followed by one plus the highest
number found among existing keys. -/
def generate_request_key (keys : List String) : String :=
  "RBGA-" ++ natRepr (maxKeyNum keys + 1)

/- ## Server data model -/

/-- One entry of `requests_db`: the dictionary `create_request` /
`create_draft_request` store.  Payload-derived fields keep their JSON
values; fields the server itself writes are typed by what it writes.
`attachment_ids` is `none` when the full-create payload had no
`rbga.field.attach` entry (the dictionary key is then absent);
`is_draft` is the flag only `create_draft_request` sets. -/
structure Request where
  key : String
  summary : JSON
  pkey : JSON
  issuetype : JSON
  applicant : JSON
  priority : JSON
  sourceSystem : JSON
  data : JSON
  created_at : String
  updated_at : String
  status : String
  resolution : JSON
  workflow_stage : String
  approvals : List JSON
  attachment_ids : Option (List String)
  is_draft : Bool
deriving DecidableEq

/-- One entry of `attachments_db`. -/
structure Attachment where
  id : String
  filename : JSON
  file : JSON
  request_key : String
  created_at : String
deriving DecidableEq

/-- The two module-level in-memory stores of the mock server. -/
structure ServerState where
  requests_db : List (String × Request)
  attachments_db : List (String × Attachment)
deriving DecidableEq

/-- The keys currently stored in `requests_db`, in insertion order. -/
def storedKeys (st : ServerState) : List String := st.requests_db.map Prod.fst

/-- `jsonify({"error": msg})`. -/
def errObj (msg : String) : JSON := JSON.obj [("error", JSON.str msg)]

/-- The catch-all 500 body `{"error": "Internal server error: ..."}`;
the interpolated exception text is elided in the model. -/
def internalError : JSON := JSON.obj [("error", JSON.str "Internal server error")]

/- ## Validator (`validate_rbga_request`) -/

def required_top : List String :=
  ["summary", "pkey", "issuetype", "applicant", "priority", "sourceSystem", "data"]

def rbga_required : List String :=
  ["rbga.field.termCheck", "rbga.field.description",
   "rbga.field.workflowType", "rbga.field.approver1"]

/-- The `for field in required_fields: if field not in payload` loop:
first listed field absent from the dictionary, if any. -/
def firstMissing (fields : List String) (o : List (String × JSON)) : Option String :=
  fields.find? (fun f => !(hasKey o f))

/-- The same loop over an arbitrary `data` value, using Python `in`
semantics (which can raise on non-container values). -/
def firstMissingIn : List String → JSON → Except Unit (Option String)
  | [], _ => .ok none
  | f :: fs, data =>
    match pyIn f data with
    | .error _ => .error ()
    | .ok b => if b then firstMissingIn fs data else .ok (some f)

/-- Python `x in ["a", "b", ...]` where the list holds strings: true
exactly for an equal string. -/
def inStrList (v : JSON) (opts : List String) : Bool :=
  match v with
  | JSON.str s => opts.contains s
  | _ => false

/-- The `for i, approver in enumerate(approvers)` loop. -/
def checkApprovers : Nat → List JSON → Bool × String
  | _, [] => (true, "")
  | i, a :: rest =>
    match a with
    | JSON.obj afs =>
      match firstMissing ["userid", "description"] afs with
      | some f => (false, "Approver " ++ natRepr i ++ " missing required field: " ++ f)
      | none => checkApprovers (i + 1) rest
    | _ => (false, "Approver " ++ natRepr i ++ " must be an object")

/-- `validate_rbga_request(payload)`.  `.error ()` models an exception
escaping the validator (e.g. `data.get(...)` on a non-dict `data`),
which the handler's `try/except` turns into a 500. -/
def validate_rbga_request (payload : List (String × JSON)) :
    Except Unit (Bool × String) :=
  match firstMissing required_top payload with
  | some f => .ok (false, "Missing required field: " ++ f)
  | none =>
    if getDv payload "pkey" ≠ JSON.str "RBGA" then
      .ok (false, "pkey must be 'RBGA'")
    else if getDv payload "issuetype" ≠ JSON.str "rbga.issuetype.default" then
      .ok (false, "issuetype must be 'rbga.issuetype.default'")
    else if getDv payload "priority" ≠ JSON.str "default" then
      .ok (false, "priority must be 'default'")
    else
      let data := (dbLookup payload "data").getD (JSON.obj [])
      match firstMissingIn rbga_required data with
      | .error _ => .error ()
      | .ok (some f) => .ok (false, "Missing required RBGA field: " ++ f)
      | .ok none =>
        match pyGet data "rbga.field.termCheck" with
        | .error _ => .error ()
        | .ok tc =>
          if !inStrList tc ["yes", "no"] then
            .ok (false, "rbga.field.termCheck must be 'yes' or 'no'")
          else
            match pyGet data "rbga.field.workflowType" with
            | .error _ => .error ()
            | .ok wt =>
              if !inStrList wt ["Parallel", "Serial"] then
                .ok (false, "rbga.field.workflowType must be 'Parallel' or 'Serial'")
              else
                match pyGet data "rbga.field.approver1" with
                | .error _ => .error ()
                | .ok a1 =>
                  match a1 with
                  | JSON.obj afs =>
                    if !(hasKey afs "approvers") then
                      .ok (false, "rbga.field.approver1 must contain 'approvers' array")
                    else
                      match (dbLookup afs "approvers").getD (JSON.arr []) with
                      | JSON.arr approvers =>
                        if approvers.isEmpty then
                          .ok (false, "rbga.field.approver1.approvers must be a non-empty array")
                        else .ok (checkApprovers 0 approvers)
                      | _ =>
                        .ok (false, "rbga.field.approver1.approvers must be a non-empty array")
                  | _ => .ok (false, "rbga.field.approver1 must contain 'approvers' array")

/- ## Create handlers -/

/-- The draft key `f"RBGA-DRAFT-{str(uuid.uuid4())[:8].upper()}"`, with
the fresh `str(uuid.uuid4())` value passed in as `us`. -/
def draft_request_key (us : String) : String :=
  "RBGA-DRAFT-" ++ String.mk ((us.data.take 8).map Char.toUpper)

/-- `create_draft_request`.  `body` is `request.get_json()` (`none` for a
missing/non-JSON body); `now` is `datetime.now().isoformat()`; `us` is
`str(uuid.uuid4())`. -/
def create_draft_request (st : ServerState)
    (body : Option (List (String × JSON))) (now us : String) :
    (Nat × JSON) × ServerState :=
  match body with
  | none => ((400, errObj "Request body is required"), st)
  | some payload =>
    if payload.isEmpty then ((400, errObj "Request body is required"), st)
    else
      match firstMissing ["summary", "pkey", "applicant"] payload with
      | some f => ((400, errObj ("Missing required field: " ++ f)), st)
      | none =>
        if getDv payload "pkey" ≠ JSON.str "RBGA" then
          ((400, errObj "pkey must be 'RBGA'"), st)
        else
          let request_key := draft_request_key us
          let created : Request :=
            { key := request_key
              summary := getDv payload "summary"
              pkey := getDv payload "pkey"
              issuetype := (dbLookup payload "issuetype").getD (JSON.str "rbga.issuetype.default")
              applicant := getDv payload "applicant"
              priority := (dbLookup payload "priority").getD (JSON.str "default")
              sourceSystem := (dbLookup payload "sourceSystem").getD (JSON.str "WorkON")
              data := (dbLookup payload "data").getD (JSON.obj [])
              created_at := now
              updated_at := now
              status := "Draft"
              resolution := JSON.null
              workflow_stage := "Draft"
              approvals := []
              attachment_ids := none
              is_draft := true }
          ((201, JSON.obj
              [("success", JSON.bool true),
               ("message", JSON.str "RBGA draft request created successfully"),
               ("key", JSON.str request_key),
               ("status", JSON.str "Draft"),
               ("created_at", JSON.str now)]),
           { st with requests_db := dbInsert st.requests_db request_key created })

/-- One stored attachment record built inside the
`for i, attachment in enumerate(attachments)` loop. -/
def attachmentEntry (key now aid : String) (i : Nat)
    (afs : List (String × JSON)) : Attachment :=
  { id := aid
    filename := (dbLookup afs "filename").getD (JSON.str ("attachment_" ++ natRepr i))
    file := (dbLookup afs "file").getD (JSON.str "")
    request_key := key
    created_at := now }

/-- The attachment-storing loop of `create_request`.  Python mutates
`attachments_db` one element at a time, so when a non-dict element
raises `AttributeError` the insertions made so far remain: the function
returns the partially updated store together with the error. -/
def storeAttachLoop (key now : String) (uuid : Nat → String) :
    Nat → List JSON → List (String × Attachment) → List String →
    List (String × Attachment) × Except Unit (List String)
  | _, [], adb, ids => (adb, .ok ids)
  | i, a :: rest, adb, ids =>
    match a with
    | JSON.obj afs =>
      let aid := uuid i
      storeAttachLoop key now uuid (i + 1) rest
        (dbInsert adb aid (attachmentEntry key now aid i afs)) (ids ++ [aid])
    | _ => (adb, .error ())

/-- `create_request`.  `uuid n` is the `str(uuid.uuid4())` drawn for the
`n`-th attachment. -/
def create_request (st : ServerState)
    (body : Option (List (String × JSON))) (now : String)
    (uuid : Nat → String) : (Nat × JSON) × ServerState :=
  match body with
  | none => ((400, errObj "Request body is required"), st)
  | some payload =>
    if payload.isEmpty then ((400, errObj "Request body is required"), st)
    else
      match validate_rbga_request payload with
      | .error _ => ((500, internalError), st)
      | .ok (false, msg) => ((400, errObj msg), st)
      | .ok (true, _) =>
        let request_key := generate_request_key (storedKeys st)
        match getDv payload "data" with
        | JSON.obj dfs =>
          let base : Request :=
            { key := request_key
              summary := getDv payload "summary"
              pkey := getDv payload "pkey"
              issuetype := getDv payload "issuetype"
              applicant := getDv payload "applicant"
              priority := getDv payload "priority"
              sourceSystem := getDv payload "sourceSystem"
              data := JSON.obj dfs
              created_at := now
              updated_at := now
              status := "Submitted"
              resolution := JSON.null
              workflow_stage := "Initial Review"
              approvals := []
              attachment_ids := none
              is_draft := false }
          if hasKey dfs "rbga.field.attach" then
            match pyIter (getDv dfs "rbga.field.attach") with
            | .error _ => ((500, internalError), st)
            | .ok items =>
              match storeAttachLoop request_key now uuid 0 items st.attachments_db [] with
              | (adb, .error _) =>
                ((500, internalError), { st with attachments_db := adb })
              | (adb, .ok ids) =>
                ((201, JSON.obj [("key", JSON.str request_key)]),
                 { requests_db :=
                     dbInsert st.requests_db request_key
                       { base with attachment_ids := some ids }
                   attachments_db := adb })
          else
            ((201, JSON.obj [("key", JSON.str request_key)]),
             { st with requests_db := dbInsert st.requests_db request_key base })
        | _ => ((500, internalError), st)

/- ## Status handler (`get_status`) -/

/-- The hard-coded internationalized status table. -/
def fixedStatusTable : JSON :=
  JSON.arr
    [JSON.obj [("i8nValue", JSON.str "Cerrado"), ("localeName", JSON.str "es_ES")],
     JSON.obj [("i8nValue", JSON.str "クローズ済み"), ("localeName", JSON.str "ja_JP")],
     JSON.obj [("i8nValue", JSON.str "종료"), ("localeName", JSON.str "ko_KR")],
     JSON.obj [("i8nValue", JSON.str "Closed"), ("localeName", JSON.str "en_UK")],
     JSON.obj [("i8nValue", JSON.str "Abgeschlossen"), ("localeName", JSON.str "de_DE")]]

/-- `GET /status/<request_key>`. -/
def get_status (st : ServerState) (request_key : String) :
    (Nat × JSON) × ServerState :=
  match dbLookup st.requests_db request_key with
  | none =>
    ((404, errObj ("Request with key " ++ request_key ++ " not found")), st)
  | some _ =>
    ((200, JSON.obj
        [("status", fixedStatusTable),
         ("requestKey", JSON.str request_key),
         ("resolution", JSON.str "Approved")]), st)

/- ## Detail handler (`get_workitem_detail`) -/

/-- A JSON value Python can hash and hence probe a dictionary with:
everything except lists and dicts. -/
def pyHashable : JSON → Bool
  | JSON.arr _ => false
  | JSON.obj _ => false
  | _ => true

/-- The `for field in custom_fields` loop: look each requested field up
in `request_data["data"]` and collect the hits into the
`response["customFields"]` dictionary.  With a dict `data`, a string
field is looked up; an unhashable field (a list or dict) raises
`TypeError` at the membership test; the other hashable non-string
values never equal a string key and are skipped.  Membership tests
against a non-dict stored `data` value raise (`TypeError` for numbers,
booleans and `None` immediately; for lists and strings when the
membership test succeeds, via the subsequent indexing).  A numeric
field that indexes a list in range is approximated as raising. -/
def collectCustom : List JSON → JSON → List (String × JSON) →
    Except Unit (List (String × JSON))
  | [], _, acc => .ok acc
  | f :: fs, data, acc =>
    match data with
    | JSON.obj dfs =>
      match f with
      | JSON.str s =>
        match dbLookup dfs s with
        | some v => collectCustom fs data (dbInsert acc s v)
        | none => collectCustom fs data acc
      | JSON.arr _ => .error ()
      | JSON.obj _ => .error ()
      | _ => collectCustom fs data acc
    | JSON.arr xs =>
      if xs.contains f then .error () else collectCustom fs data acc
    | JSON.str s =>
      match f with
      | JSON.str fstr =>
        if isSubstr fstr.data s.data then .error () else collectCustom fs data acc
      | _ => .error ()
    | _ => .error ()

/-- The base detail response (`key/summary/status/resolution` plus the
two timestamps). -/
def detailBase (request_key : String) (r : Request) : List (String × JSON) :=
  [("key", JSON.str request_key),
   ("summary", r.summary),
   ("status", JSON.str r.status),
   ("resolution", r.resolution),
   ("created_at", JSON.str r.created_at),
   ("updated_at", JSON.str r.updated_at)]

/-- The optional `approvalHistory` entry. -/
def detailHistory (payload : List (String × JSON)) (r : Request) :
    List (String × JSON) :=
  if getDv payload "approvalHistory" = JSON.str "yes" then
    [("approvalHistory", JSON.arr r.approvals)]
  else []

/-- `POST /workitemdetails/<request_key>`. -/
def get_workitem_detail (st : ServerState) (request_key : String)
    (body : Option (List (String × JSON))) : (Nat × JSON) × ServerState :=
  match dbLookup st.requests_db request_key with
  | none =>
    ((404, errObj ("Request with key " ++ request_key ++ " not found")), st)
  | some r =>
    let payload := body.getD []
    let withHist := detailBase request_key r ++ detailHistory payload r
    let custom_fields := (dbLookup payload "customFields").getD (JSON.arr [])
    if pyTruthy custom_fields then
      match pyIter custom_fields with
      | .error _ => ((500, internalError), st)
      | .ok fields =>
        match collectCustom fields r.data [] with
        | .error _ => ((500, internalError), st)
        | .ok cfs =>
          ((200, JSON.obj (withHist ++ [("customFields", JSON.obj cfs)])), st)
    else
      ((200, JSON.obj (withHist ++ [("data", r.data)])), st)

/- ## Attachments handler (`get_workitem_attachments`) -/

/-- The `request_attachments` list: every stored attachment linked to
the key, projected to the response shape, in store order. -/
def attachmentsFor (st : ServerState) (request_key : String) : List JSON :=
  st.attachments_db.filterMap fun p =>
    if p.2.request_key = request_key then
      some (JSON.obj
        [("id", JSON.str p.1),
         ("filename", p.2.filename),
         ("file", p.2.file),
         ("created_at", JSON.str p.2.created_at)])
    else none

/-- The single-attachment match test:
`(attachment_name and attachment["filename"] == attachment_name) or
(attachment_id and attachment["id"] == attachment_id)`. -/
def attachmentMatches (attachment_name attachment_id : JSON) (a : JSON) : Bool :=
  (pyTruthy attachment_name && jgetD a "filename" == attachment_name) ||
  (pyTruthy attachment_id && jgetD a "id" == attachment_id)

/-- `POST /workitemattachments/<request_key>`. -/
def get_workitem_attachments (st : ServerState) (request_key : String)
    (body : Option (List (String × JSON))) : (Nat × JSON) × ServerState :=
  match dbLookup st.requests_db request_key with
  | none =>
    ((404, errObj ("Request with key " ++ request_key ++ " not found")), st)
  | some _ =>
    let payload := body.getD []
    match pyLower ((dbLookup payload "sendAll").getD (JSON.str "false")) with
    | .error _ => ((500, internalError), st)
    | .ok sendAllStr =>
      let send_all := sendAllStr = "true"
      let attachment_name := getDv payload "attachmentName"
      let attachment_id := getDv payload "attachmentId"
      let request_attachments := attachmentsFor st request_key
      if send_all then
        ((200, JSON.obj
            [("attachments", JSON.arr request_attachments),
             ("count", JSON.num request_attachments.length)]), st)
      else
        match request_attachments.find?
            (attachmentMatches attachment_name attachment_id) with
        | none => ((404, errObj "Attachment not found"), st)
        | some a => ((200, JSON.obj [("attachment", a)]), st)

/- ## Template, listing and health handlers -/

/-- The module-level `RBGA_FIELDS` table. -/
def RBGA_FIELDS : JSON :=
  JSON.obj
    [("common.field.employee.firstname",
      JSON.obj [("type", JSON.str "string"), ("required", JSON.bool false)]),
     ("common.field.employee.lastname",
      JSON.obj [("type", JSON.str "string"), ("required", JSON.bool false)]),
     ("common.field.employee.department",
      JSON.obj [("type", JSON.str "string"), ("required", JSON.bool false)]),
     ("common.field.employee.costcenter",
      JSON.obj [("type", JSON.str "string"), ("required", JSON.bool false)]),
     ("common.field.employee.location",
      JSON.obj [("type", JSON.str "string"), ("required", JSON.bool false)]),
     ("rbga.field.termCheck",
      JSON.obj [("type", JSON.str "enum"),
                ("options", JSON.arr [JSON.str "yes", JSON.str "no"]),
                ("required", JSON.bool true)]),
     ("rbga.field.description",
      JSON.obj [("type", JSON.str "string"), ("required", JSON.bool true)]),
     ("rbga.field.comments",
      JSON.obj [("type", JSON.str "string"), ("required", JSON.bool false)]),
     ("rbga.field.workflowType",
      JSON.obj [("type", JSON.str "enum"),
                ("options", JSON.arr [JSON.str "Parallel", JSON.str "Serial"]),
                ("required", JSON.bool true)]),
     ("rbga.field.wf2",
      JSON.obj [("type", JSON.str "enum"),
                ("options", JSON.arr [JSON.str "Parallel", JSON.str "Serial"]),
                ("required", JSON.bool false)]),
     ("rbga.field.wf3",
      JSON.obj [("type", JSON.str "enum"),
                ("options", JSON.arr [JSON.str "Parallel", JSON.str "Serial"]),
                ("required", JSON.bool false)]),
     ("rbga.field.parallelWorkflowSel",
      JSON.obj [("type", JSON.str "enum"),
                ("options", JSON.arr [JSON.str "One approver approves the request",
                                      JSON.str "All the Approvers has to approve"]),
                ("required", JSON.bool false)]),
     ("rbga.field.parallelWorkflowSel2",
      JSON.obj [("type", JSON.str "enum"),
                ("options", JSON.arr [JSON.str "One approver approves the request",
                                      JSON.str "All the Approvers has to approve"]),
                ("required", JSON.bool false)]),
     ("rbga.field.parallelWorkflowSel3",
      JSON.obj [("type", JSON.str "enum"),
                ("options", JSON.arr [JSON.str "One approver approves the request",
                                      JSON.str "All the Approvers has to approve"]),
                ("required", JSON.bool false)]),
     ("rbga.field.tempNew",
      JSON.obj [("type", JSON.str "enum"),
                ("options", JSON.arr [JSON.str "New Request"]),
                ("required", JSON.bool false)]),
     ("rbga.field.approvalstep",
      JSON.obj [("type", JSON.str "enum"),
                ("options", JSON.arr [JSON.str "One Step Approval",
                                      JSON.str "Multi Step Approval"]),
                ("required", JSON.bool false)]),
     ("rbga.field.additionalFields",
      JSON.obj [("type", JSON.str "array"), ("required", JSON.bool false)]),
     ("rbga.field.approver1",
      JSON.obj [("type", JSON.str "object"), ("required", JSON.bool true)]),
     ("rbga.field.attach",
      JSON.obj [("type", JSON.str "array"), ("required", JSON.bool false)]),
     ("rbga.field.item",
      JSON.obj [("type", JSON.str "array"), ("required", JSON.bool false)]),
     ("rbga.field.grid",
      JSON.obj [("type", JSON.str "array"), ("required", JSON.bool false)])]

/-- The static `template_info` body of `GET /rbga/template`. -/
def templateInfo : JSON :=
  JSON.obj
    [("template_name", JSON.str "RBGA"),
     ("description", JSON.str "Request for Budget, Governance & Approval template"),
     ("version", JSON.str "1.0"),
     ("application_key", JSON.str "RBGA"),
     ("issue_type", JSON.str "rbga.issuetype.default"),
     ("required_fields",
      JSON.obj
        [("summary",
          JSON.obj [("type", JSON.str "string"),
                    ("description", JSON.str "Summary of the Workitem")]),
         ("pkey",
          JSON.obj [("type", JSON.str "string"), ("value", JSON.str "RBGA"),
                    ("description", JSON.str "Application Key")]),
         ("issuetype",
          JSON.obj [("type", JSON.str "string"),
                    ("value", JSON.str "rbga.issuetype.default"),
                    ("description", JSON.str "IssueType of Workitem")]),
         ("applicant",
          JSON.obj [("type", JSON.str "string"),
                    ("description",
                     JSON.str "NT id of the applicant who creates the request in lower case")]),
         ("priority",
          JSON.obj [("type", JSON.str "string"), ("value", JSON.str "default"),
                    ("description", JSON.str "Priority of Workitem : default in workon")]),
         ("sourceSystem",
          JSON.obj [("type", JSON.str "string"),
                    ("description", JSON.str "Your System Name (which calls this API)")])]),
     ("data_fields", RBGA_FIELDS),
     ("sample_payload",
      JSON.obj
        [("summary", JSON.str "Request for Substitution"),
         ("pkey", JSON.str "RBGA"),
         ("issuetype", JSON.str "rbga.issuetype.default"),
         ("applicant", JSON.str "ntid"),
         ("priority", JSON.str "default"),
         ("sourceSystem", JSON.str "WorkON"),
         ("data",
          JSON.obj
            [("common.field.employee.firstname", JSON.str "firstName"),
             ("common.field.employee.lastname", JSON.str "lastname"),
             ("common.field.employee.department", JSON.str "department"),
             ("common.field.employee.costcenter", JSON.str "costcenter"),
             ("common.field.employee.location", JSON.str "location"),
             ("rbga.field.termCheck", JSON.str "yes"),
             ("rbga.field.description", JSON.str "Detailed Description for the request"),
             ("rbga.field.comments", JSON.str "Comments"),
             ("rbga.field.workflowType", JSON.str "Parallel"),
             ("rbga.field.wf2", JSON.str "Serial"),
             ("rbga.field.wf3", JSON.str "Serial"),
             ("rbga.field.parallelWorkflowSel", JSON.str "One approver approves the request"),
             ("rbga.field.parallelWorkflowSel2", JSON.str "All the Approvers has to approve"),
             ("rbga.field.parallelWorkflowSel3", JSON.str "All the Approvers has to approve"),
             ("rbga.field.tempNew", JSON.str "New Request"),
             ("rbga.field.approvalstep", JSON.str "One Step Approval"),
             ("rbga.field.additionalFields",
              JSON.arr [JSON.obj [("fields", JSON.str "fieldname"),
                                  ("details", JSON.str "value")]]),
             ("rbga.field.approver1",
              JSON.obj
                [("approvers",
                  JSON.arr [JSON.obj
                    [("addAfterEnabled", JSON.bool true),
                     ("deleteFlag", JSON.str "Yes"),
                     ("description", JSON.str "Manager"),
                     ("fixed", JSON.bool false),
                     ("removable", JSON.bool true),
                     ("userid", JSON.str "ntid"),
                     ("ccList", JSON.str "ntid")]]),
                 ("checkDuplicate", JSON.str "false"),
                 ("maxApprover", JSON.str "20"),
                 ("type", JSON.str "1")]),
             ("rbga.field.attach",
              JSON.arr [JSON.obj [("filename", JSON.str "example.pdf"),
                                  ("file", JSON.str "Base64EncodedString")]])])])]

/-- `GET /rbga/template`. -/
def get_rbga_template (st : ServerState) : (Nat × JSON) × ServerState :=
  ((200, templateInfo), st)

/-- Python truthiness of an optional query-parameter string
(`request.args.get(...)` returns `None` when absent; the empty string is
falsy). -/
def pyTruthyArg : Option String → Bool
  | none => false
  | some s => !s.data.isEmpty

/-- `GET /requests` with its optional `status` / `pkey` query filters. -/
def list_requests (st : ServerState)
    (status_filter pkey_filter : Option String) : (Nat × JSON) × ServerState :=
  let filtered := st.requests_db.filterMap fun p =>
    if pyTruthyArg status_filter ∧ p.2.status ≠ status_filter.getD "" then none
    else if pyTruthyArg pkey_filter ∧ p.2.pkey ≠ JSON.str (pkey_filter.getD "") then none
    else
      some (JSON.obj
        [("key", JSON.str p.1),
         ("summary", p.2.summary),
         ("status", JSON.str p.2.status),
         ("applicant", p.2.applicant),
         ("created_at", JSON.str p.2.created_at),
         ("workflow_stage", JSON.str p.2.workflow_stage)])
  ((200, JSON.obj [("requests", JSON.arr filtered),
                   ("count", JSON.num filtered.length)]), st)

/-- `GET /health` (`now` is the interpolated timestamp). -/
def health_check (st : ServerState) (now : String) : (Nat × JSON) × ServerState :=
  ((200, JSON.obj
      [("status", JSON.str "healthy"),
       ("service", JSON.str "Mock WorkOn RBGA API"),
       ("version", JSON.str "1.0.0"),
       ("timestamp", JSON.str now),
       ("rbga_operations",
        JSON.obj
          [("1", JSON.str "PUT /createrequest/create - Create Request"),
           ("2", JSON.str "PUT /createdraftrequest/draft - Create Draft Request"),
           ("3", JSON.str "GET /status/<request_key> - Get Status"),
           ("4", JSON.str "POST /workitemdetails/<request_key> - Get Request Details"),
           ("5", JSON.str "POST /workitemattachments/<request_key> - Get Workitem Attachments")]),
       ("additional_endpoints",
        JSON.arr [JSON.str "GET /rbga/template",
                  JSON.str "GET /requests",
                  JSON.str "GET /health"])]), st)

/- ## Client side (`workon_api.py`, `workon_cli.py`) -/

/-- An outbound HTTP call as the client assembles it.  `timeout` is the
`timeout=` keyword passed to `requests`; the client never passes one, so
every call it builds carries `none`. -/
structure HttpCall where
  verb : String
  url : String
  payload : JSON
  timeout : Option Nat
deriving DecidableEq

/-- The `WorkOnAPI` instance state set up by `__init__`. -/
structure WorkOnAPIClient where
  base_url : String
  key_id : Option JSON
  headers : List (String × String)
deriving DecidableEq

/-- Python `s.rstrip('/')`. -/
def rstripSlash (s : String) : String :=
  String.mk (((s.data.reverse).dropWhile (fun c => c = '/')).reverse)

/-- Calling `WorkOnAPI(...)` with a list of positional arguments.
`__init__` declares exactly `(self, base_url, key_id=None)`, so any call
with more than two positional arguments raises `TypeError`, modelled as
`.error ()` (a non-string `base_url` would likewise raise at
`.rstrip`). -/
def workOnAPI_init (args : List JSON) : Except Unit WorkOnAPIClient :=
  match args with
  | [JSON.str b] =>
    .ok { base_url := rstripSlash b, key_id := none
          headers := [("Content-Type", "application/json")] }
  | [JSON.str b, k] =>
    .ok { base_url := rstripSlash b, key_id := some k
          headers :=
            if pyTruthy k then
              [("Content-Type", "application/json"),
               ("KeyId", match k with | JSON.str s => s | _ => "")]
            else [("Content-Type", "application/json")] }
  | _ => .error ()

/-- The `DEFAULT` section `load_config` installs when no config file
exists. -/
def cliDefaultConfig : List (String × String) :=
  [("endpoint", "http://localhost:5001"),
   ("key_id", "test-key-id"),
   ("timeout", "30"),
   ("source_system", "WorkOn CLI")]

/-- `WorkOnCLI.get_api_client`: reads `endpoint`, `key_id` and `timeout`
from the configuration and calls `WorkOnAPI(endpoint, key_id, timeout)` —
three positional arguments. -/
def get_api_client (cfg : List (String × String)) : Except Unit WorkOnAPIClient :=
  let endpoint := (dbLookup cfg "endpoint").getD ""
  let key_id := (dbLookup cfg "key_id").getD ""
  match parseNat? ((dbLookup cfg "timeout").getD "").data with
  | none => .error ()
  | some t => workOnAPI_init [JSON.str endpoint, JSON.str key_id, JSON.num t]

/-- The payload `WorkOnAPI.create_rbga_request` builds. -/
def create_rbga_request_payload (summary applicant : String) (data : JSON)
    (source_system : String) : List (String × JSON) :=
  [("summary", JSON.str summary),
   ("pkey", JSON.str "RBGA"),
   ("issuetype", JSON.str "rbga.issuetype.default"),
   ("applicant", JSON.str (pyLowerStr applicant)),
   ("priority", JSON.str "default"),
   ("sourceSystem", JSON.str source_system),
   ("data", data)]

/-- The outbound call `WorkOnAPI.create_rbga_request` makes. -/
def create_rbga_request_call (base_url summary applicant : String)
    (data : JSON) (source_system : String) : HttpCall :=
  { verb := "PUT"
    url := base_url ++ "/createrequest/create"
    payload := JSON.obj (create_rbga_request_payload summary applicant data source_system)
    timeout := none }

/-- The payload `WorkOnAPI.create_draft_rbga_request` builds. -/
def create_draft_rbga_request_payload (summary applicant : String)
    (data : JSON) (source_system : String) : List (String × JSON) :=
  [("summary", JSON.str summary),
   ("pkey", JSON.str "RBGA"),
   ("issuetype", JSON.str "rbga.issuetype.default"),
   ("applicant", JSON.str (pyLowerStr applicant)),
   ("priority", JSON.str "default"),
   ("sourceSystem", JSON.str source_system),
   ("data", data),
   ("draft", JSON.bool true)]

/-- The outbound call `WorkOnAPI.create_draft_rbga_request` makes. -/
def create_draft_rbga_request_call (base_url summary applicant : String)
    (data : JSON) (source_system : String) : HttpCall :=
  { verb := "PUT"
    url := base_url ++ "/createdraftrequest/draft"
    payload := JSON.obj (create_draft_rbga_request_payload summary applicant data source_system)
    timeout := none }

/-- The outbound call `WorkOnAPI.get_request_status` makes. -/
def get_request_status_call (base_url request_key : String) : HttpCall :=
  { verb := "GET", url := base_url ++ "/status/" ++ request_key
    payload := JSON.null, timeout := none }

/-- The outbound call `WorkOnAPI.get_workitem_detail` makes. -/
def get_workitem_detail_call (base_url request_key : String)
    (custom_fields system_fields : Option (List String))
    (include_approval_history : Bool) : HttpCall :=
  let p0 : List (String × JSON) :=
    if include_approval_history then [("approvalHistory", JSON.str "yes")] else []
  let p1 := match custom_fields with
    | some cf => if !cf.isEmpty then p0 ++ [("customFields", JSON.arr (cf.map JSON.str))] else p0
    | none => p0
  let p2 := match system_fields with
    | some sf => if !sf.isEmpty then p1 ++ [("systemFields", JSON.arr (sf.map JSON.str))] else p1
    | none => p1
  { verb := "POST", url := base_url ++ "/workitemdetails/" ++ request_key
    payload := JSON.obj p2, timeout := none }

/-- The outbound call `WorkOnAPI.get_attachments` makes (`sendAll` is
serialized as `str(send_all).lower()`). -/
def get_attachments_call (base_url request_key user : String)
    (attachment_name : Option String) (send_all : Bool) : HttpCall :=
  let p0 : List (String × JSON) :=
    [("user", JSON.str user),
     ("sendAll", JSON.str (if send_all then "true" else "false"))]
  let p1 := match attachment_name with
    | some an =>
      if !send_all && !an.data.isEmpty then p0 ++ [("attachmentName", JSON.str an)]
      else p0
    | none => p0
  { verb := "POST", url := base_url ++ "/workitemattachments/" ++ request_key
    payload := JSON.obj p1, timeout := none }

/- ## Lemmas about decimal digits and key parsing -/

theorem digitChar_toNat (d : Nat) (h : d < 10) : (digitChar d).toNat = 48 + d := by
  interval_cases d <;> decide

theorem isDigitChar_digitChar (d : Nat) : isDigitChar (digitChar d) = true :=
  match d with
  | 0 => by decide
  | 1 => by decide
  | 2 => by decide
  | 3 => by decide
  | 4 => by decide
  | 5 => by decide
  | 6 => by decide
  | 7 => by decide
  | 8 => by decide
  | _ + 9 => by
    show isDigitChar ('9') = true
    decide

theorem isDigitChar_ne_dash (c : Char) (h : isDigitChar c = true) : c ≠ '-' := by
  intro heq; subst heq; simp [isDigitChar] at h

theorem natDigitsAux_ne_nil (fuel n : Nat) : natDigitsAux fuel n ≠ [] := by
  cases fuel with
  | zero => simp [natDigitsAux]
  | succ fuel =>
    rw [natDigitsAux]
    split <;> simp

theorem natDigits_ne_nil (n : Nat) : natDigits n ≠ [] := natDigitsAux_ne_nil n n

theorem natDigitsAux_all_digits (fuel : Nat) :
    ∀ n, (natDigitsAux fuel n).all isDigitChar = true := by
  induction fuel with
  | zero => intro n; simp [natDigitsAux, isDigitChar_digitChar]
  | succ fuel ih =>
    intro n
    rw [natDigitsAux]
    split
    · simp [isDigitChar_digitChar]
    · rw [List.all_append]
      simp [ih (n / 10), isDigitChar_digitChar]

theorem natDigits_all_digits (n : Nat) : (natDigits n).all isDigitChar = true :=
  natDigitsAux_all_digits n n

theorem natDigitsAux_foldl (fuel : Nat) :
    ∀ n, n ≤ fuel →
      (natDigitsAux fuel n).foldl (fun a c => 10 * a + (c.toNat - 48)) 0 = n := by
  induction fuel with
  | zero =>
    intro n hn
    have : n = 0 := by omega
    subst this
    decide
  | succ fuel ih =>
    intro n hn
    rw [natDigitsAux]
    split
    · next h => simp [digitChar_toNat n h]
    · next h =>
      rw [List.foldl_append]
      have hdiv : n / 10 < n := Nat.div_lt_self (by omega) (by omega)
      have h1 := ih (n / 10) (by omega)
      have h2 : n % 10 < 10 := Nat.mod_lt _ (by omega)
      simp [h1, digitChar_toNat _ h2]
      omega

theorem natDigits_foldl (n : Nat) :
    (natDigits n).foldl (fun a c => 10 * a + (c.toNat - 48)) 0 = n :=
  natDigitsAux_foldl n n (le_refl n)

theorem parseNat?_natDigits (n : Nat) : parseNat? (natDigits n) = some n := by
  unfold parseNat?
  rw [if_pos ⟨natDigits_ne_nil n, natDigits_all_digits n⟩, natDigits_foldl n]

theorem natDigits_no_dash (n : Nat) : ∀ c ∈ natDigits n, c ≠ '-' := by
  intro c hc
  have := natDigits_all_digits n
  rw [List.all_eq_true] at this
  exact isDigitChar_ne_dash c (this c hc)

/- ## Lemmas about `splitOnDash` -/

theorem splitOnDash_ne_nil (cs : List Char) : splitOnDash cs ≠ [] := by
  induction cs with
  | nil => simp [splitOnDash]
  | cons c cs ih =>
    simp only [splitOnDash]
    split
    · simp
    · cases h : splitOnDash cs with
      | nil => exact absurd h ih
      | cons s ss => simp

theorem splitOnDash_no_dash (cs : List Char) (h : ∀ c ∈ cs, c ≠ '-') :
    splitOnDash cs = [cs] := by
  induction cs with
  | nil => rfl
  | cons c cs ih =>
    have hc : c ≠ '-' := h c (List.mem_cons_self c cs)
    have hrest : splitOnDash cs = [cs] := ih (fun x hx => h x (List.mem_cons_of_mem c hx))
    simp [splitOnDash, hc, hrest]

theorem splitOnDash_append_dash (pre rest : List Char) (h : ∀ c ∈ pre, c ≠ '-') :
    splitOnDash (pre ++ '-' :: rest) = pre :: splitOnDash rest := by
  induction pre with
  | nil => simp [splitOnDash]
  | cons c pre ih =>
    have hc : c ≠ '-' := h c (List.mem_cons_self c pre)
    have hrest := ih (fun x hx => h x (List.mem_cons_of_mem c hx))
    simp [splitOnDash, hc, hrest]

/- ## Lemmas about `keyNum?` and `maxKeyNum` -/

theorem data_rbga_dash : ("RBGA-" : String).data = ['R', 'B', 'G', 'A', '-'] := rfl

theorem keyNum?_gen (n : Nat) : keyNum? ("RBGA-" ++ natRepr n) = some n := by
  have hdata : ("RBGA-" ++ natRepr n).data = ['R', 'B', 'G', 'A', '-'] ++ natDigits n := by
    rw [String.data_append, data_rbga_dash]; rfl
  have hpre : pyStartsWith "RBGA-" ("RBGA-" ++ natRepr n) = true := by
    rw [pyStartsWith, hdata, data_rbga_dash]
    simp [List.isPrefixOf]
  have hsplit : splitOnDash (("RBGA-" ++ natRepr n).data) =
      [['R', 'B', 'G', 'A'], natDigits n] := by
    rw [hdata]
    have : ['R', 'B', 'G', 'A', '-'] ++ natDigits n =
        ['R', 'B', 'G', 'A'] ++ '-' :: natDigits n := by simp
    rw [this, splitOnDash_append_dash _ _ (by decide),
      splitOnDash_no_dash _ (natDigits_no_dash n)]
  rw [keyNum?, if_pos hpre, hsplit]
  simpa using parseNat?_natDigits n

theorem keyNum?_draft (tok : String) :
    keyNum? ("RBGA-DRAFT-" ++ tok) = none := by
  have hdata : ("RBGA-DRAFT-" ++ tok).data =
      ['R', 'B', 'G', 'A'] ++ '-' :: (['D', 'R', 'A', 'F', 'T'] ++ '-' :: tok.data) := by
    rw [String.data_append]; rfl
  have hpre : pyStartsWith "RBGA-" ("RBGA-DRAFT-" ++ tok) = true := by
    rw [pyStartsWith, hdata, data_rbga_dash]
    simp [List.isPrefixOf]
  rw [keyNum?, if_pos hpre, hdata,
    splitOnDash_append_dash _ _ (by decide),
    splitOnDash_append_dash _ _ (by decide)]
  simp only [List.get?_cons_succ, List.get?_cons_zero]
  decide

/-- The accumulator step of the `max_num` loop. -/
def maxStep (m : Nat) (k : String) : Nat :=
  match keyNum? k with | some n => max m n | none => m

theorem maxKeyNum_eq_foldl (keys : List String) :
    maxKeyNum keys = keys.foldl maxStep 0 := by
  rw [maxKeyNum]
  congr 1

theorem le_maxStep (a : Nat) (k : String) : a ≤ maxStep a k := by
  rw [maxStep]
  cases keyNum? k <;> simp

theorem foldl_maxStep_init_le (keys : List String) :
    ∀ a, a ≤ keys.foldl maxStep a := by
  induction keys with
  | nil => intro a; simp
  | cons k keys ih =>
    intro a
    calc a ≤ maxStep a k := le_maxStep a k
    _ ≤ keys.foldl maxStep (maxStep a k) := ih _
    _ = (k :: keys).foldl maxStep a := by simp

theorem mem_keyNum_le_maxKeyNum (keys : List String) (k : String) (n : Nat)
    (hmem : k ∈ keys) (hk : keyNum? k = some n) : n ≤ maxKeyNum keys := by
  rw [maxKeyNum_eq_foldl]
  have hmono : ∀ (l : List String) (a b : Nat), a ≤ b →
      l.foldl maxStep a ≤ l.foldl maxStep b := by
    intro l
    induction l with
    | nil => intro a b hab; simpa using hab
    | cons x l ihl =>
      intro a b hab
      simp only [List.foldl_cons]
      apply ihl
      cases hx : keyNum? x with
      | none => simpa [maxStep, hx] using hab
      | some m => simp only [maxStep, hx]; omega
  induction keys with
  | nil => cases hmem
  | cons k' keys ih =>
    rcases List.mem_cons.mp hmem with heq | hmem'
    · subst heq
      have h1 : n ≤ maxStep 0 k := by rw [maxStep, hk]; simp
      calc n ≤ maxStep 0 k := h1
      _ ≤ keys.foldl maxStep (maxStep 0 k) := foldl_maxStep_init_le keys _
      _ = (k :: keys).foldl maxStep 0 := by simp
    · calc n ≤ keys.foldl maxStep 0 := ih hmem'
      _ ≤ keys.foldl maxStep (maxStep 0 k') := hmono keys 0 _ (le_maxStep 0 k')
      _ = (k' :: keys).foldl maxStep 0 := by simp

theorem foldl_maxStep_filterMap (keys : List String) :
    ∀ a, keys.foldl maxStep a = max a ((keys.filterMap keyNum?).foldr max 0) := by
  induction keys with
  | nil => intro a; simp
  | cons k keys ih =>
    intro a
    simp only [List.foldl_cons, List.filterMap_cons]
    cases hk : keyNum? k with
    | none => rw [ih (maxStep a k)]; rw [maxStep, hk]
    | some n =>
      rw [ih (maxStep a k), maxStep, hk]
      simp only [List.foldr_cons]
      omega

theorem maxKeyNum_filterMap (keys : List String) :
    maxKeyNum keys = (keys.filterMap keyNum?).foldr max 0 := by
  rw [maxKeyNum_eq_foldl, foldl_maxStep_filterMap]
  omega

theorem maxKeyNum_append_one (keys : List String) (k : String) :
    maxKeyNum (keys ++ [k]) = maxStep (maxKeyNum keys) k := by
  rw [maxKeyNum_eq_foldl, maxKeyNum_eq_foldl, List.foldl_append]
  rfl

/- ## Dictionary lemmas -/

theorem dbLookup_isSome_mem {α : Type} (db : List (String × α)) (k : String)
    (h : (dbLookup db k).isSome) : k ∈ db.map Prod.fst := by
  induction db with
  | nil => simp [dbLookup] at h
  | cons p rest ih =>
    obtain ⟨k0, v0⟩ := p
    by_cases hk : k0 = k
    · subst hk; simp
    · simp only [dbLookup, if_neg hk] at h
      simpa using Or.inr (ih h)

theorem dbLookup_append_of_some {α : Type} (db l : List (String × α))
    (k : String) (r : α) (h : dbLookup db k = some r) :
    dbLookup (db ++ l) k = some r := by
  induction db with
  | nil => simp [dbLookup] at h
  | cons p rest ih =>
    obtain ⟨k0, v0⟩ := p
    by_cases hk : k0 = k
    · subst hk
      simp only [dbLookup, if_pos rfl] at h ⊢
      exact h
    · simp only [dbLookup, if_neg hk] at h ⊢
      exact ih h

theorem map_fst_dbInsert_fresh {α : Type} (db : List (String × α))
    (k : String) (v : α) (h : dbLookup db k = none) :
    (dbInsert db k v).map Prod.fst = db.map Prod.fst ++ [k] := by
  rw [dbInsert, if_neg (by simp [h])]
  simp

theorem dbLookup_overwrite_self {α : Type} (db : List (String × α))
    (k : String) (v : α) (h : (dbLookup db k).isSome = true) :
    dbLookup (db.map (fun p => if p.1 = k then (k, v) else p)) k = some v := by
  induction db with
  | nil => simp [dbLookup] at h
  | cons p rest ih =>
    obtain ⟨k0, v0⟩ := p
    by_cases hk : k0 = k
    · subst hk
      simp only [List.map_cons]
      simp [dbLookup]
    · simp only [List.map_cons]
      rw [if_neg hk]
      simp only [dbLookup, if_neg hk] at h ⊢
      exact ih h

theorem dbLookup_overwrite_other {α : Type} (db : List (String × α))
    (k k' : String) (v : α) (hne : k' ≠ k) :
    dbLookup (db.map (fun p => if p.1 = k then (k, v) else p)) k' =
      dbLookup db k' := by
  induction db with
  | nil => simp [dbLookup]
  | cons p rest ih =>
    obtain ⟨k0, v0⟩ := p
    by_cases hk : k0 = k
    · subst hk
      simp only [List.map_cons, if_pos trivial]
      simp only [dbLookup, if_neg (fun h : k0 = k' => hne h.symm)]
      exact ih
    · simp only [List.map_cons]
      rw [if_neg hk]
      by_cases hk' : k0 = k'
      · simp [dbLookup, hk']
      · simp only [dbLookup, if_neg hk']
        exact ih

theorem dbLookup_append_single_self {α : Type} (db : List (String × α))
    (k : String) (v : α) (h : dbLookup db k = none) :
    dbLookup (db ++ [(k, v)]) k = some v := by
  induction db with
  | nil => simp [dbLookup]
  | cons p rest ih =>
    obtain ⟨k0, v0⟩ := p
    by_cases hk : k0 = k
    · subst hk; simp [dbLookup] at h
    · simp only [dbLookup, if_neg hk] at h
      simp only [List.cons_append, dbLookup, if_neg hk]
      exact ih h

theorem dbLookup_append_single_other {α : Type} (db : List (String × α))
    (k k' : String) (v : α) (hne : k' ≠ k) :
    dbLookup (db ++ [(k, v)]) k' = dbLookup db k' := by
  induction db with
  | nil =>
    show dbLookup [(k, v)] k' = dbLookup ([] : List (String × α)) k'
    simp only [dbLookup]
    rw [if_neg (fun h : k = k' => hne h.symm)]
  | cons p rest ih =>
    obtain ⟨k0, v0⟩ := p
    by_cases hk' : k0 = k'
    · simp [dbLookup, hk']
    · simp only [List.cons_append, dbLookup, if_neg hk']
      exact ih

theorem dbLookup_dbInsert_self {α : Type} (db : List (String × α))
    (k : String) (v : α) : dbLookup (dbInsert db k v) k = some v := by
  rw [dbInsert]
  split
  · next h => exact dbLookup_overwrite_self db k v h
  · next h =>
    apply dbLookup_append_single_self
    cases hl : dbLookup db k
    · rfl
    · rw [hl] at h; simp at h

theorem dbLookup_dbInsert_other {α : Type} (db : List (String × α))
    (k k' : String) (v : α) (hne : k' ≠ k) :
    dbLookup (dbInsert db k v) k' = dbLookup db k' := by
  rw [dbInsert]
  split
  · exact dbLookup_overwrite_other db k k' v hne
  · exact dbLookup_append_single_other db k k' v hne

/- ## Freshness of generated keys -/

theorem keyNum?_generate (keys : List String) :
    keyNum? (generate_request_key keys) = some (maxKeyNum keys + 1) :=
  keyNum?_gen (maxKeyNum keys + 1)

theorem generate_request_key_not_mem (keys : List String) :
    generate_request_key keys ∉ keys := by
  intro hmem
  have := mem_keyNum_le_maxKeyNum keys _ _ hmem (keyNum?_generate keys)
  omega

theorem generate_request_key_fresh (st : ServerState) :
    dbLookup st.requests_db (generate_request_key (storedKeys st)) = none := by
  cases hl : dbLookup st.requests_db (generate_request_key (storedKeys st)) with
  | none => rfl
  | some r =>
    have hmem := dbLookup_isSome_mem st.requests_db _ (by rw [hl]; rfl)
    exact absurd hmem (generate_request_key_not_mem (storedKeys st))

/- ## Sequences of full-create calls -/

/-- One full-create invocation: the request body plus the
nondeterministic inputs of that call. -/
structure CreateInput where
  body : Option (List (String × JSON))
  now : String
  uuid : Nat → String

/-- Run a sequence of `PUT /createrequest/create` calls, collecting the
responses and threading the store. -/
def createRun (st : ServerState) : List CreateInput → List (Nat × JSON) × ServerState
  | [] => ([], st)
  | inp :: rest =>
    let r := create_request st inp.body inp.now inp.uuid
    ((r.1 :: (createRun r.2 rest).1), (createRun r.2 rest).2)

/-- The `key` field of a create response body. -/
def respKey (resp : Nat × JSON) : Option String :=
  match jget resp.2 "key" with
  | some (JSON.str s) => some s
  | _ => none

/-- The keys returned by a sequence of create calls, in order. -/
def createdKeys (st : ServerState) (inps : List CreateInput) : List String :=
  (createRun st inps).1.filterMap respKey

/-- Anatomy of a successful (201) full create: the body carries exactly
the generated key, the request store gains exactly that key at the end,
and the attachment store only ever gains entries. -/
theorem create_request_201 (st : ServerState)
    (body : Option (List (String × JSON))) (now : String) (uuid : Nat → String)
    (h : (create_request st body now uuid).1.1 = 201) :
    (create_request st body now uuid).1.2 =
      JSON.obj [("key", JSON.str (generate_request_key (storedKeys st)))] ∧
    storedKeys (create_request st body now uuid).2 =
      storedKeys st ++ [generate_request_key (storedKeys st)] := by
  have hfresh := generate_request_key_fresh st
  rcases body with _ | payload
  · simp [create_request] at h
  by_cases hemp : payload.isEmpty
  · simp [create_request, hemp] at h
  cases hval : validate_rbga_request payload with
  | error e => simp [create_request, hemp, hval] at h
  | ok pr =>
    obtain ⟨b, msg⟩ := pr
    cases b with
    | false => simp [create_request, hemp, hval] at h
    | true =>
      cases hdata : getDv payload "data" with
      | null => simp [create_request, hemp, hval, hdata] at h
      | bool b' => simp [create_request, hemp, hval, hdata] at h
      | num n' => simp [create_request, hemp, hval, hdata] at h
      | str s' => simp [create_request, hemp, hval, hdata] at h
      | arr xs => simp [create_request, hemp, hval, hdata] at h
      | obj dfs =>
        by_cases hatt : hasKey dfs "rbga.field.attach"
        · cases hiter : pyIter (getDv dfs "rbga.field.attach") with
          | error e => simp [create_request, hemp, hval, hdata, hatt, hiter] at h
          | ok items =>
            rcases hloop : storeAttachLoop (generate_request_key (storedKeys st))
                now uuid 0 items st.attachments_db [] with ⟨adb, res⟩
            cases res with
            | error e =>
              simp [create_request, hemp, hval, hdata, hatt, hiter, hloop] at h
            | ok ids =>
              constructor
              · simp [create_request, hemp, hval, hdata, hatt, hiter, hloop]
              · simp only [create_request, hemp, Bool.false_eq_true, if_false,
                  hval, hdata, hatt, if_true, hiter, hloop]
                exact map_fst_dbInsert_fresh _ _ _ hfresh
        · constructor
          · simp [create_request, hemp, hval, hdata, hatt]
          · simp only [create_request, hemp, Bool.false_eq_true, if_false,
              hval, hdata, hatt, if_false]
            exact map_fst_dbInsert_fresh _ _ _ hfresh

/-- A full create, successful or not, never removes or modifies an
existing request record. -/
theorem create_request_preserves (st : ServerState)
    (body : Option (List (String × JSON))) (now : String) (uuid : Nat → String)
    (k : String) (r : Request) (hk : dbLookup st.requests_db k = some r) :
    dbLookup (create_request st body now uuid).2.requests_db k = some r := by
  have hfresh := generate_request_key_fresh st
  have hne : k ≠ generate_request_key (storedKeys st) := by
    intro heq; rw [heq, hfresh] at hk; cases hk
  rcases body with _ | payload
  · simpa [create_request]
  by_cases hemp : payload.isEmpty
  · simpa [create_request, hemp]
  cases hval : validate_rbga_request payload with
  | error e => simpa [create_request, hemp, hval]
  | ok pr =>
    obtain ⟨b, msg⟩ := pr
    cases b with
    | false => simpa [create_request, hemp, hval]
    | true =>
      cases hdata : getDv payload "data" with
      | null => simpa [create_request, hemp, hval, hdata]
      | bool b' => simpa [create_request, hemp, hval, hdata]
      | num n' => simpa [create_request, hemp, hval, hdata]
      | str s' => simpa [create_request, hemp, hval, hdata]
      | arr xs => simpa [create_request, hemp, hval, hdata]
      | obj dfs =>
        by_cases hatt : hasKey dfs "rbga.field.attach"
        · cases hiter : pyIter (getDv dfs "rbga.field.attach") with
          | error e => simpa [create_request, hemp, hval, hdata, hatt, hiter]
          | ok items =>
            rcases hloop : storeAttachLoop (generate_request_key (storedKeys st))
                now uuid 0 items st.attachments_db [] with ⟨adb, res⟩
            cases res with
            | error e => simpa [create_request, hemp, hval, hdata, hatt, hiter, hloop]
            | ok ids =>
              simp only [create_request, hemp, Bool.false_eq_true, if_false,
                hval, hdata, hatt, if_true, hiter, hloop]
              rw [dbLookup_dbInsert_other _ _ _ _ hne]
              exact hk
        · simp only [create_request, hemp, Bool.false_eq_true, if_false,
            hval, hdata, hatt, if_false]
          rw [dbLookup_dbInsert_other _ _ _ _ hne]
          exact hk

/-- After a successful create the maximum stored numeric suffix has
grown by exactly one. -/
theorem maxKeyNum_after_201 (st : ServerState)
    (body : Option (List (String × JSON))) (now : String) (uuid : Nat → String)
    (h : (create_request st body now uuid).1.1 = 201) :
    maxKeyNum (storedKeys (create_request st body now uuid).2) =
      maxKeyNum (storedKeys st) + 1 := by
  obtain ⟨-, hkeys⟩ := create_request_201 st body now uuid h
  rw [hkeys, maxKeyNum_append_one]
  simp only [maxStep, keyNum?_generate]
  omega

/-- In an all-successful run, the returned keys have strictly increasing
numeric suffixes, all above the initial store's maximum. -/
theorem createRun_strict_mono (inps : List CreateInput) :
    ∀ st : ServerState, (∀ r ∈ (createRun st inps).1, r.1 = 201) →
      List.Chain' (fun a b => (keyNum? a).getD 0 < (keyNum? b).getD 0)
        (createdKeys st inps) ∧
      ∀ k ∈ createdKeys st inps,
        maxKeyNum (storedKeys st) < (keyNum? k).getD 0 := by
  induction inps with
  | nil => intro st _; simp [createdKeys, createRun]
  | cons inp rest ih =>
    intro st hall
    have h201 : (create_request st inp.body inp.now inp.uuid).1.1 = 201 := by
      have := hall (create_request st inp.body inp.now inp.uuid).1
        (by simp [createRun])
      exact this
    obtain ⟨hbody, hkeys⟩ := create_request_201 st inp.body inp.now inp.uuid h201
    have hrest : ∀ r ∈ (createRun (create_request st inp.body inp.now inp.uuid).2 rest).1,
        r.1 = 201 := by
      intro r hr
      exact hall r (by simp [createRun, hr])
    obtain ⟨hchain, hgt⟩ := ih (create_request st inp.body inp.now inp.uuid).2 hrest
    have hmax := maxKeyNum_after_201 st inp.body inp.now inp.uuid h201
    have hck : createdKeys st (inp :: rest) =
        generate_request_key (storedKeys st) ::
          createdKeys (create_request st inp.body inp.now inp.uuid).2 rest := by
      simp only [createdKeys, createRun, List.filterMap_cons]
      rw [show respKey (create_request st inp.body inp.now inp.uuid).1 =
          some (generate_request_key (storedKeys st)) by
        rw [respKey, hbody]; rfl]
    rw [hck]
    have hgennum : (keyNum? (generate_request_key (storedKeys st))).getD 0 =
        maxKeyNum (storedKeys st) + 1 := by rw [keyNum?_generate]; rfl
    constructor
    · rw [List.chain'_cons']
      refine ⟨?_, hchain⟩
      intro y hy
      have hmem : y ∈ createdKeys (create_request st inp.body inp.now inp.uuid).2 rest :=
        List.mem_of_mem_head? hy
      have := hgt y hmem
      rw [hmax] at this
      omega
    · intro k hk
      rcases List.mem_cons.mp hk with heq | hmem
      · subst heq; omega
      · have := hgt k hmem
        rw [hmax] at this
        omega

theorem map_fst_overwrite {α : Type} (db : List (String × α)) (k : String) (v : α) :
    (db.map (fun p => if p.1 = k then (k, v) else p)).map Prod.fst =
      db.map Prod.fst := by
  induction db with
  | nil => rfl
  | cons p rest ih =>
    obtain ⟨k0, v0⟩ := p
    by_cases hk : k0 = k
    · subst hk
      simpa using ih
    · simp only [List.map_cons]
      rw [if_neg hk]
      simpa using ih

theorem map_fst_dbInsert {α : Type} (db : List (String × α)) (k : String) (v : α) :
    (dbInsert db k v).map Prod.fst =
      if (dbLookup db k).isSome then db.map Prod.fst
      else db.map Prod.fst ++ [k] := by
  rw [dbInsert]
  split
  · exact map_fst_overwrite db k v
  · simp

theorem maxKeyNum_append_none (keys : List String) (k : String)
    (h : keyNum? k = none) : maxKeyNum (keys ++ [k]) = maxKeyNum keys := by
  rw [maxKeyNum_append_one]
  simp [maxStep, h]

theorem keyNum?_draft_key (us : String) :
    keyNum? (draft_request_key us) = none :=
  keyNum?_draft (String.mk ((us.data.take 8).map Char.toUpper))

/- ## Claim C1 -/

/-- Fixture: the empty initial store. -/
def st0 : ServerState := ⟨[], []⟩

/-- Fixture: a payload passing full validation (no attachments). -/
def validPayload : List (String × JSON) :=
  [("summary", JSON.str "Request for Software License Approval"),
   ("pkey", JSON.str "RBGA"),
   ("issuetype", JSON.str "rbga.issuetype.default"),
   ("applicant", JSON.str "john.doe"),
   ("priority", JSON.str "default"),
   ("sourceSystem", JSON.str "WorkON"),
   ("data", JSON.obj
     [("rbga.field.termCheck", JSON.str "yes"),
      ("rbga.field.description", JSON.str "Detailed Description"),
      ("rbga.field.workflowType", JSON.str "Parallel"),
      ("rbga.field.approver1", JSON.obj
        [("approvers", JSON.arr
           [JSON.obj [("userid", JSON.str "mgr"),
                      ("description", JSON.str "Manager")]])])])]

/-- C1.  Key generation: `generate_request_key` returns `"RBGA-"`
followed by one plus the maximum value parsed from existing keys that
start with `"RBGA-"` and have a numeric second segment (`"RBGA-1"` when
no such key exists), and in any all-successful sequence of full-create
calls started from any store the returned keys have strictly increasing
numeric suffixes and are pairwise distinct. -/
theorem C1_key_generation :
    (∀ keys : List String,
        generate_request_key keys =
          "RBGA-" ++ natRepr ((keys.filterMap keyNum?).foldr max 0 + 1)) ∧
    (∀ keys : List String, (∀ k ∈ keys, keyNum? k = none) →
        generate_request_key keys = "RBGA-1") ∧
    (∀ (st : ServerState) (inps : List CreateInput),
        (∀ r ∈ (createRun st inps).1, r.1 = 201) →
        List.Chain' (fun a b => (keyNum? a).getD 0 < (keyNum? b).getD 0)
          (createdKeys st inps) ∧
        List.Pairwise (fun a b : String => a ≠ b) (createdKeys st inps)) := by
  refine ⟨?_, ?_, ?_⟩
  · intro keys
    rw [generate_request_key, maxKeyNum_filterMap]
  · intro keys h
    have hnil : keys.filterMap keyNum? = [] := by
      rw [List.filterMap_eq_nil_iff]
      exact h
    rw [generate_request_key, maxKeyNum_filterMap, hnil]
    decide
  · intro st inps hall
    obtain ⟨hchain, -⟩ := createRun_strict_mono inps st hall
    refine ⟨hchain, ?_⟩
    haveI : IsTrans String (fun a b => (keyNum? a).getD 0 < (keyNum? b).getD 0) :=
      ⟨fun a b c h1 h2 => lt_trans h1 h2⟩
    have hp := List.chain'_iff_pairwise.mp hchain
    exact hp.imp fun hlt heq => by subst heq; exact lt_irrefl _ hlt

/-- Witness for C1 at concrete inputs: a store containing `"RBGA-2"` and
a draft key, a store with only non-numeric keys, and a two-call run from
the empty store. -/
theorem C1_key_generation_witness :
    generate_request_key ["RBGA-2", "RBGA-DRAFT-AB12"] =
      "RBGA-" ++ natRepr (((["RBGA-2", "RBGA-DRAFT-AB12"] : List String).filterMap
        keyNum?).foldr max 0 + 1) ∧
    generate_request_key ["RBGA-DRAFT-AB12"] = "RBGA-1" ∧
    (List.Chain' (fun a b => (keyNum? a).getD 0 < (keyNum? b).getD 0)
        (createdKeys st0 [⟨some validPayload, "t1", fun _ => "u1"⟩,
                          ⟨some validPayload, "t2", fun _ => "u2"⟩]) ∧
     List.Pairwise (fun a b : String => a ≠ b)
        (createdKeys st0 [⟨some validPayload, "t1", fun _ => "u1"⟩,
                          ⟨some validPayload, "t2", fun _ => "u2"⟩])) :=
  ⟨C1_key_generation.1 ["RBGA-2", "RBGA-DRAFT-AB12"],
   C1_key_generation.2.1 ["RBGA-DRAFT-AB12"] (by decide),
   C1_key_generation.2.2 st0
     [⟨some validPayload, "t1", fun _ => "u1"⟩,
      ⟨some validPayload, "t2", fun _ => "u2"⟩] (by decide)⟩

/- ## Claim C10 -/

/-- C10.  `generate_request_key` is total: a key whose second
`"-"`-segment is not a numeral is skipped (its swallowed parse failure
leaves the running maximum unchanged), draft keys are always of that
shape, and a draft-create — successful or not — never changes the key
the next full create will receive. -/
theorem C10_draft_keys_skipped :
    (∀ (keys : List String) (k : String), keyNum? k = none →
        maxKeyNum (keys ++ [k]) = maxKeyNum keys) ∧
    (∀ tok : String, keyNum? ("RBGA-DRAFT-" ++ tok) = none) ∧
    (∀ (st : ServerState) (body : Option (List (String × JSON))) (now us : String),
        generate_request_key (storedKeys (create_draft_request st body now us).2) =
          generate_request_key (storedKeys st)) := by
  refine ⟨maxKeyNum_append_none, keyNum?_draft, ?_⟩
  intro st body now us
  rcases body with _ | payload
  · rfl
  by_cases hemp : payload.isEmpty
  · simp [create_draft_request, hemp]
  cases hmiss : firstMissing ["summary", "pkey", "applicant"] payload with
  | some f => simp [create_draft_request, hemp, hmiss]
  | none =>
    by_cases hpk : getDv payload "pkey" = JSON.str "RBGA"
    · simp only [create_draft_request, hemp, Bool.false_eq_true, if_false, hmiss,
        ne_eq, hpk, not_true_eq_false]
      rw [storedKeys, map_fst_dbInsert]
      split
      · rfl
      · rw [generate_request_key, generate_request_key,
          maxKeyNum_append_none _ _ (keyNum?_draft_key us)]
        rfl
    · simp [create_draft_request, hemp, hmiss, hpk]

/-- Fixture: a non-draft stored record under key `"RBGA-7"`. -/
def sampleFullRecord : Request :=
  { key := "RBGA-7"
    summary := JSON.str "s"
    pkey := JSON.str "RBGA"
    issuetype := JSON.str "rbga.issuetype.default"
    applicant := JSON.str "a"
    priority := JSON.str "default"
    sourceSystem := JSON.str "WorkON"
    data := JSON.obj []
    created_at := "t"
    updated_at := "t"
    status := "Submitted"
    resolution := JSON.null
    workflow_stage := "Initial Review"
    approvals := []
    attachment_ids := none
    is_draft := false }

/-- Fixture: a store holding only `"RBGA-7"`. -/
def stOne : ServerState := ⟨[("RBGA-7", sampleFullRecord)], []⟩

/-- Fixture: a minimal draft payload. -/
def minimalDraftPayload : List (String × JSON) :=
  [("summary", JSON.str "d"), ("pkey", JSON.str "RBGA"),
   ("applicant", JSON.str "a")]

/-- Witness for C10 at concrete inputs: a numeric store plus a
non-numeric key, a concrete draft token, and a successful draft-create
interleaved into a store already holding `"RBGA-7"`. -/
theorem C10_draft_keys_skipped_witness :
    maxKeyNum (["RBGA-7"] ++ ["RBGA-DRAFT-AB12"]) = maxKeyNum ["RBGA-7"] ∧
    keyNum? ("RBGA-DRAFT-" ++ "AB12CD34") = none ∧
    generate_request_key (storedKeys
        (create_draft_request stOne (some minimalDraftPayload) "t" "ab12cd34-ef").2) =
      generate_request_key (storedKeys stOne) :=
  ⟨C10_draft_keys_skipped.1 ["RBGA-7"] "RBGA-DRAFT-AB12" (by decide),
   C10_draft_keys_skipped.2.1 "AB12CD34",
   C10_draft_keys_skipped.2.2 stOne (some minimalDraftPayload) "t" "ab12cd34-ef"⟩

/- ## Claim C2: validator characterization -/

/-- One approver entry is acceptable: a mapping with both `userid` and
`description` (spec §4.2). -/
def isApproverOk (a : JSON) : Bool :=
  match a with
  | JSON.obj afs => hasKey afs "userid" && hasKey afs "description"
  | _ => false

/-- Spec-level full-validation predicate, written from the spec's words
(§4.2 full validation): all seven top-level fields present, the three
sentinel values exact, `data` a mapping with the four mandatory fields,
the two enums restricted, and a well-formed non-empty approver block.
Used only to compare against `validate_rbga_request`. -/
def validSpec (payload : List (String × JSON)) : Bool :=
  required_top.all (hasKey payload) &&
  decide (getDv payload "pkey" = JSON.str "RBGA") &&
  decide (getDv payload "issuetype" = JSON.str "rbga.issuetype.default") &&
  decide (getDv payload "priority" = JSON.str "default") &&
  (match dbLookup payload "data" with
   | some (JSON.obj dfs) =>
     rbga_required.all (hasKey dfs) &&
     inStrList (getDv dfs "rbga.field.termCheck") ["yes", "no"] &&
     inStrList (getDv dfs "rbga.field.workflowType") ["Parallel", "Serial"] &&
     (match getDv dfs "rbga.field.approver1" with
      | JSON.obj afs =>
        (match (dbLookup afs "approvers").getD (JSON.arr []) with
         | JSON.arr aps => !aps.isEmpty && aps.all isApproverOk
         | _ => false)
      | _ => false)
   | _ => false)

theorem firstMissing_none_iff (fields : List String) (o : List (String × JSON)) :
    firstMissing fields o = none ↔ fields.all (hasKey o) = true := by
  rw [firstMissing, List.find?_eq_none, List.all_eq_true]
  constructor
  · intro h f hf
    have := h f hf
    simpa using this
  · intro h f hf
    simp [h f hf]

theorem firstMissing_first (pre post : List String) (f : String)
    (o : List (String × JSON)) (hpre : ∀ g ∈ pre, hasKey o g = true)
    (hf : hasKey o f = false) :
    firstMissing (pre ++ f :: post) o = some f := by
  induction pre with
  | nil => simp [firstMissing, List.find?_cons, hf]
  | cons g pre ih =>
    have hg : hasKey o g = true := hpre g (List.mem_cons_self g pre)
    have := ih (fun x hx => hpre x (List.mem_cons_of_mem g hx))
    simp only [firstMissing, List.cons_append, List.find?_cons, hg,
      Bool.not_true] at this ⊢
    exact this

theorem firstMissingIn_obj (fs : List String) (dfs : List (String × JSON)) :
    firstMissingIn fs (JSON.obj dfs) = .ok (firstMissing fs dfs) := by
  induction fs with
  | nil => rfl
  | cons f fs ih =>
    simp only [firstMissingIn, pyIn]
    cases hk : hasKey dfs f with
    | true => simpa [firstMissing, List.find?_cons, hk] using ih
    | false => simp [firstMissing, List.find?_cons, hk]

theorem checkApprovers_true_iff (aps : List JSON) :
    ∀ i, checkApprovers i aps = (true, "") ↔ aps.all isApproverOk = true := by
  induction aps with
  | nil => intro i; simp [checkApprovers]
  | cons a aps ih =>
    intro i
    cases a with
    | obj afs =>
      cases hfm : firstMissing ["userid", "description"] afs with
      | some f =>
        have hnall : ¬(["userid", "description"].all (hasKey afs) = true) := by
          rw [← firstMissing_none_iff]
          simp [hfm]
        have hno : isApproverOk (JSON.obj afs) = false := by
          simp only [isApproverOk]
          simp only [List.all_cons, List.all_nil, Bool.and_true] at hnall
          cases h1 : hasKey afs "userid" <;> cases h2 : hasKey afs "description" <;>
            simp_all
        simp only [checkApprovers, hfm, List.all_cons, hno, Bool.false_and]
        constructor
        · intro h
          exact absurd (congrArg Prod.fst h) (by simp)
        · intro h
          simp at h
      | none =>
        have hall : ["userid", "description"].all (hasKey afs) = true :=
          (firstMissing_none_iff _ _).mp hfm
        simp only [List.all_cons, List.all_nil, Bool.and_true] at hall
        simp only [checkApprovers, hfm, List.all_cons, isApproverOk, hall,
          Bool.true_and]
        exact ih (i + 1)
    | null => simp [checkApprovers, isApproverOk]
    | bool b => simp [checkApprovers, isApproverOk]
    | num n => simp [checkApprovers, isApproverOk]
    | str s => simp [checkApprovers, isApproverOk]
    | arr xs => simp [checkApprovers, isApproverOk]

theorem hasKey_false_none (o : List (String × JSON)) (k : String)
    (h : hasKey o k = false) : dbLookup o k = none := by
  cases hl : dbLookup o k with
  | none => rfl
  | some v => rw [hasKey, hl] at h; simp at h

theorem hasKey_true_some (o : List (String × JSON)) (k : String)
    (h : hasKey o k = true) : ∃ v, dbLookup o k = some v := by
  cases hl : dbLookup o k with
  | none => rw [hasKey, hl] at h; simp at h
  | some v => exact ⟨v, rfl⟩

theorem validate_ok_true_iff (payload : List (String × JSON)) :
    validate_rbga_request payload = .ok (true, "") ↔ validSpec payload = true := by
  rw [validate_rbga_request, validSpec]
  cases hfm : firstMissing required_top payload with
  | some f =>
    have hfalse : required_top.all (hasKey payload) = false := by
      cases hall : required_top.all (hasKey payload)
      · rfl
      · exact absurd hfm (by rw [(firstMissing_none_iff _ _).mpr hall]; simp)
    simp [hfalse]
  | none =>
    have htop : required_top.all (hasKey payload) = true :=
      (firstMissing_none_iff _ _).mp hfm
    simp only [htop, Bool.true_and]
    by_cases hpk : getDv payload "pkey" = JSON.str "RBGA"
    · by_cases hit : getDv payload "issuetype" = JSON.str "rbga.issuetype.default"
      · by_cases hpr : getDv payload "priority" = JSON.str "default"
        · simp only [hpk, hit, hpr, ne_eq, not_true_eq_false, if_false,
            decide_True, Bool.true_and]
          have hdatakey : hasKey payload "data" = true := by
            simp only [required_top, List.all_cons, List.all_nil, Bool.and_true,
              Bool.and_eq_true] at htop
            exact htop.2.2.2.2.2.2
          obtain ⟨d, hd⟩ := hasKey_true_some payload "data" hdatakey
          rw [hd]
          simp only [Option.getD_some]
          cases d with
          | null => simp [rbga_required, firstMissingIn, pyIn]
          | bool b => simp [rbga_required, firstMissingIn, pyIn]
          | num n => simp [rbga_required, firstMissingIn, pyIn]
          | str s =>
            cases hfmi : firstMissingIn rbga_required (JSON.str s) with
            | error e => simp [hfmi]
            | ok o =>
              cases o with
              | some f => simp [hfmi]
              | none => simp [hfmi, pyGet]
          | arr xs =>
            cases hfmi : firstMissingIn rbga_required (JSON.arr xs) with
            | error e => simp [hfmi]
            | ok o =>
              cases o with
              | some f => simp [hfmi]
              | none => simp [hfmi, pyGet]
          | obj dfs =>
            rw [firstMissingIn_obj]
            cases hfm2 : firstMissing rbga_required dfs with
            | some f =>
              have hfalse2 : rbga_required.all (hasKey dfs) = false := by
                cases hall : rbga_required.all (hasKey dfs)
                · rfl
                · exact absurd hfm2 (by rw [(firstMissing_none_iff _ _).mpr hall]; simp)
              simp [hfalse2]
            | none =>
              have hall2 : rbga_required.all (hasKey dfs) = true :=
                (firstMissing_none_iff _ _).mp hfm2
              simp only [hall2, Bool.true_and, pyGet, getDv]
              cases htc : inStrList ((dbLookup dfs "rbga.field.termCheck").getD
                  JSON.null) ["yes", "no"] with
              | false => simp [htc]
              | true =>
                simp only [htc, Bool.not_true, Bool.false_eq_true, if_false,
                  Bool.true_and]
                cases hwt : inStrList ((dbLookup dfs "rbga.field.workflowType").getD
                    JSON.null) ["Parallel", "Serial"] with
                | false => simp [hwt]
                | true =>
                  simp only [hwt, Bool.not_true, Bool.false_eq_true, if_false,
                    Bool.true_and]
                  cases ha1 : (dbLookup dfs "rbga.field.approver1").getD
                      JSON.null with
                  | null => simp [ha1]
                  | bool b => simp [ha1]
                  | num n => simp [ha1]
                  | str s => simp [ha1]
                  | arr xs => simp [ha1]
                  | obj afs =>
                    simp only [ha1]
                    cases hak : hasKey afs "approvers" with
                    | false =>
                      rw [hasKey_false_none afs "approvers" hak]
                      simp [hak]
                    | true =>
                      obtain ⟨v, hv⟩ := hasKey_true_some afs "approvers" hak
                      rw [hv]
                      simp only [hak, Bool.not_true, Bool.false_eq_true, if_false,
                        Option.getD_some]
                      cases v with
                      | null => simp
                      | bool b => simp
                      | num n => simp
                      | str s => simp
                      | obj xs => simp
                      | arr aps =>
                        cases haps : aps.isEmpty with
                        | true => simp [haps]
                        | false =>
                          simp only [haps, Bool.false_eq_true, if_false,
                            Bool.not_false, Bool.true_and]
                          rw [show (Except.ok (checkApprovers 0 aps) :
                              Except Unit (Bool × String)) = .ok (true, "") ↔
                              checkApprovers 0 aps = (true, "") by simp]
                          exact checkApprovers_true_iff aps 0
        · simp [hpr, hpk, hit]
      · simp [hit, hpk]
    · simp [hpk]

theorem create_request_400 (st : ServerState) (payload : List (String × JSON))
    (now : String) (uuid : Nat → String) (msg : String)
    (hne : payload ≠ [])
    (hval : validate_rbga_request payload = .ok (false, msg)) :
    create_request st (some payload) now uuid = ((400, errObj msg), st) := by
  have hemp : payload.isEmpty = false := by
    cases payload
    · exact absurd rfl hne
    · rfl
  simp [create_request, hemp, hval]

/-- `rbga.field.attach`, if present, is a list of objects — then the
attachment loop stores every element and succeeds. -/
def attachOk (payload : List (String × JSON)) : Bool :=
  match dbLookup payload "data" with
  | some (JSON.obj dfs) =>
    match dbLookup dfs "rbga.field.attach" with
    | none => true
    | some (JSON.arr xs) =>
      xs.all (fun a => match a with | JSON.obj _ => true | _ => false)
    | some _ => false
  | _ => false

theorem storeAttachLoop_all_obj (key now : String) (uuid : Nat → String)
    (items : List JSON) (hobj : ∀ a ∈ items, ∃ afs, a = JSON.obj afs) :
    ∀ (i : Nat) (adb : List (String × Attachment)) (ids : List String),
      ∃ adb' ids',
        storeAttachLoop key now uuid i items adb ids = (adb', .ok ids') := by
  induction items with
  | nil => intro i adb ids; exact ⟨adb, ids, rfl⟩
  | cons a rest ih =>
    intro i adb ids
    obtain ⟨afs, rfl⟩ := hobj a (List.mem_cons_self a rest)
    simp only [storeAttachLoop]
    exact ih (fun x hx => hobj x (List.mem_cons_of_mem _ hx)) (i + 1) _ _

theorem create_request_valid_201 (st : ServerState)
    (payload : List (String × JSON)) (now : String) (uuid : Nat → String)
    (hvs : validSpec payload = true) (hao : attachOk payload = true) :
    (create_request st (some payload) now uuid).1 =
      (201, JSON.obj [("key", JSON.str (generate_request_key (storedKeys st)))]) := by
  have hval : validate_rbga_request payload = .ok (true, "") :=
    (validate_ok_true_iff payload).mpr hvs
  have hdata : ∃ dfs, dbLookup payload "data" = some (JSON.obj dfs) := by
    rw [validSpec] at hvs
    cases hd : dbLookup payload "data" with
    | none => rw [hd] at hvs; simp at hvs
    | some d =>
      cases d with
      | obj dfs => exact ⟨dfs, rfl⟩
      | null => rw [hd] at hvs; simp at hvs
      | bool b => rw [hd] at hvs; simp at hvs
      | num n => rw [hd] at hvs; simp at hvs
      | str s => rw [hd] at hvs; simp at hvs
      | arr xs => rw [hd] at hvs; simp at hvs
  obtain ⟨dfs, hd⟩ := hdata
  have hemp : payload.isEmpty = false := by
    cases payload
    · simp [validSpec, required_top, hasKey, dbLookup] at hvs
    · rfl
  have hgetd : getDv payload "data" = JSON.obj dfs := by rw [getDv, hd]; rfl
  by_cases hatt : hasKey dfs "rbga.field.attach" = true
  · obtain ⟨v, hv⟩ := hasKey_true_some dfs _ hatt
    simp only [attachOk, hd, hv] at hao
    cases v with
    | arr xs =>
      have hobj : ∀ a ∈ xs, ∃ afs, a = JSON.obj afs := by
        intro a ha
        have := (List.all_eq_true.mp hao) a ha
        cases a with
        | obj afs => exact ⟨afs, rfl⟩
        | null => simp at this
        | bool b => simp at this
        | num n => simp at this
        | str s => simp at this
        | arr ys => simp at this
      have hiter : pyIter (getDv dfs "rbga.field.attach") = .ok xs := by
        rw [getDv, hv]; rfl
      obtain ⟨adb', ids', hloop⟩ :=
        storeAttachLoop_all_obj (generate_request_key (storedKeys st)) now uuid
          xs hobj 0 st.attachments_db []
      simp [create_request, hemp, hval, hgetd, hatt, hiter, hloop]
    | null => simp at hao
    | bool b => simp at hao
    | num n => simp at hao
    | str s => simp at hao
    | obj ys => simp at hao
  · simp [create_request, hemp, hval, hgetd, hatt]

/-- C2 (amended).  Full-create validation: `validate_rbga_request`
accepts exactly the payloads satisfying the spec's checklist (so each
individual check is enforced); it short-circuits in the fixed field
order, naming the first missing top-level field; a payload whose `data`
mapping lacks one of the four mandatory RBGA fields gets a 400 naming
the first missing one; `termCheck` outside `{yes, no}` gets the
dedicated 400; and a payload passing all checks — provided its
`rbga.field.attach` entry, if any, is a list of objects — yields 201
with the generated key. -/
theorem C2_full_validation :
    (∀ payload, validate_rbga_request payload = .ok (true, "") ↔
        validSpec payload = true) ∧
    (∀ (payload : List (String × JSON)) (pre post : List String) (f : String),
        payload ≠ [] → required_top = pre ++ f :: post →
        (∀ g ∈ pre, hasKey payload g = true) → hasKey payload f = false →
        ∀ (st : ServerState) (now : String) (uuid : Nat → String),
          create_request st (some payload) now uuid =
            ((400, errObj ("Missing required field: " ++ f)), st)) ∧
    (∀ (payload dfs : List (String × JSON)) (pre post : List String) (f : String),
        required_top.all (hasKey payload) = true →
        getDv payload "pkey" = JSON.str "RBGA" →
        getDv payload "issuetype" = JSON.str "rbga.issuetype.default" →
        getDv payload "priority" = JSON.str "default" →
        dbLookup payload "data" = some (JSON.obj dfs) →
        rbga_required = pre ++ f :: post →
        (∀ g ∈ pre, hasKey dfs g = true) → hasKey dfs f = false →
        ∀ (st : ServerState) (now : String) (uuid : Nat → String),
          create_request st (some payload) now uuid =
            ((400, errObj ("Missing required RBGA field: " ++ f)), st)) ∧
    (∀ (payload dfs : List (String × JSON)),
        required_top.all (hasKey payload) = true →
        getDv payload "pkey" = JSON.str "RBGA" →
        getDv payload "issuetype" = JSON.str "rbga.issuetype.default" →
        getDv payload "priority" = JSON.str "default" →
        dbLookup payload "data" = some (JSON.obj dfs) →
        rbga_required.all (hasKey dfs) = true →
        getDv dfs "rbga.field.termCheck" = JSON.str "maybe" →
        ∀ (st : ServerState) (now : String) (uuid : Nat → String),
          create_request st (some payload) now uuid =
            ((400, errObj "rbga.field.termCheck must be 'yes' or 'no'"), st)) ∧
    (∀ (payload : List (String × JSON)) (st : ServerState) (now : String)
        (uuid : Nat → String),
        validSpec payload = true → attachOk payload = true →
        (create_request st (some payload) now uuid).1 =
          (201, JSON.obj [("key", JSON.str (generate_request_key (storedKeys st)))])) := by
  refine ⟨validate_ok_true_iff, ?_, ?_, ?_,
    fun payload st now uuid hvs hao =>
      create_request_valid_201 st payload now uuid hvs hao⟩
  · intro payload pre post f hne htopeq hpre hf st now uuid
    have hfm : firstMissing required_top payload = some f := by
      rw [htopeq]
      exact firstMissing_first pre post f payload hpre hf
    have hval : validate_rbga_request payload =
        .ok (false, "Missing required field: " ++ f) := by
      rw [validate_rbga_request, hfm]
    exact create_request_400 st payload now uuid _ hne hval
  · intro payload dfs pre post f htopall hpk hit hpr hd hreq hpre hf st now uuid
    have hne : payload ≠ [] := by
      intro h
      subst h
      simp [required_top, hasKey, dbLookup] at htopall
    have hfm : firstMissing required_top payload = none :=
      (firstMissing_none_iff _ _).mpr htopall
    have hfm2 : firstMissing rbga_required dfs = some f := by
      rw [hreq]
      exact firstMissing_first pre post f dfs hpre hf
    have hval : validate_rbga_request payload =
        .ok (false, "Missing required RBGA field: " ++ f) := by
      rw [validate_rbga_request, hfm]
      simp only [hpk, hit, hpr, ne_eq, not_true_eq_false, if_false, hd,
        Option.getD_some, firstMissingIn_obj, hfm2]
    exact create_request_400 st payload now uuid _ hne hval
  · intro payload dfs htopall hpk hit hpr hd hall4 htc st now uuid
    have hne : payload ≠ [] := by
      intro h
      subst h
      simp [required_top, hasKey, dbLookup] at htopall
    have hfm : firstMissing required_top payload = none :=
      (firstMissing_none_iff _ _).mpr htopall
    have hfm2 : firstMissing rbga_required dfs = none :=
      (firstMissing_none_iff _ _).mpr hall4
    have htc' : (dbLookup dfs "rbga.field.termCheck").getD JSON.null =
        JSON.str "maybe" := htc
    have hval : validate_rbga_request payload =
        .ok (false, "rbga.field.termCheck must be 'yes' or 'no'") := by
      rw [validate_rbga_request, hfm]
      simp only [hpk, hit, hpr, ne_eq, not_true_eq_false, if_false, hd,
        Option.getD_some, firstMissingIn_obj, hfm2, pyGet, htc']
      rw [if_pos (show (!inStrList (JSON.str "maybe") ["yes", "no"]) = true
        by decide)]
    exact create_request_400 st payload now uuid _ hne hval

/-- Fixture: a payload that passes every validator check but whose
`rbga.field.attach` value is the number `5`. -/
def cexAttachPayload : List (String × JSON) :=
  [("summary", JSON.str "s"),
   ("pkey", JSON.str "RBGA"),
   ("issuetype", JSON.str "rbga.issuetype.default"),
   ("applicant", JSON.str "a"),
   ("priority", JSON.str "default"),
   ("sourceSystem", JSON.str "X"),
   ("data", JSON.obj
     [("rbga.field.termCheck", JSON.str "yes"),
      ("rbga.field.description", JSON.str "d"),
      ("rbga.field.workflowType", JSON.str "Parallel"),
      ("rbga.field.approver1", JSON.obj
        [("approvers", JSON.arr
           [JSON.obj [("userid", JSON.str "u"),
                      ("description", JSON.str "m")]])]),
      ("rbga.field.attach", JSON.num 5)])]

/-- Counterexample to C2 as stated: this payload passes all validator
checks — `validate_rbga_request` returns `(True, "")` — yet the create
handler answers 500, not 201, because iterating over the non-list
`rbga.field.attach` value raises after validation. -/
theorem C2_full_validation_cex :
    validate_rbga_request cexAttachPayload = .ok (true, "") ∧
    (create_request st0 (some cexAttachPayload) "t" (fun _ => "u")).1.1 = 500 :=
  ⟨rfl, rfl⟩

/-- Fixture: `validPayload` with `pkey` absent. -/
def missingPkeyPayload : List (String × JSON) :=
  [("summary", JSON.str "s")]

/-- Fixture: `validPayload` with the `rbga.field.termCheck` data field
absent. -/
def missingTermPayload : List (String × JSON) :=
  [("summary", JSON.str "s"),
   ("pkey", JSON.str "RBGA"),
   ("issuetype", JSON.str "rbga.issuetype.default"),
   ("applicant", JSON.str "a"),
   ("priority", JSON.str "default"),
   ("sourceSystem", JSON.str "X"),
   ("data", JSON.obj
     [("rbga.field.description", JSON.str "d"),
      ("rbga.field.workflowType", JSON.str "Parallel"),
      ("rbga.field.approver1", JSON.obj
        [("approvers", JSON.arr
           [JSON.obj [("userid", JSON.str "u"),
                      ("description", JSON.str "m")]])])])]

/-- Fixture: `validPayload` with `termCheck = "maybe"`. -/
def maybeTermPayload : List (String × JSON) :=
  [("summary", JSON.str "s"),
   ("pkey", JSON.str "RBGA"),
   ("issuetype", JSON.str "rbga.issuetype.default"),
   ("applicant", JSON.str "a"),
   ("priority", JSON.str "default"),
   ("sourceSystem", JSON.str "X"),
   ("data", JSON.obj
     [("rbga.field.termCheck", JSON.str "maybe"),
      ("rbga.field.description", JSON.str "d"),
      ("rbga.field.workflowType", JSON.str "Parallel"),
      ("rbga.field.approver1", JSON.obj
        [("approvers", JSON.arr
           [JSON.obj [("userid", JSON.str "u"),
                      ("description", JSON.str "m")]])])])]

/-- Witness for C2 at concrete inputs: the accepted fixture payload, a
payload missing `pkey` (named in the 400), one missing
`rbga.field.termCheck` (named in the 400), one with
`termCheck = "maybe"`, and a successful 201 from the empty store. -/
theorem C2_full_validation_witness :
    (validate_rbga_request validPayload = .ok (true, "") ↔
        validSpec validPayload = true) ∧
    create_request st0 (some missingPkeyPayload) "t" (fun _ => "u") =
      ((400, errObj ("Missing required field: " ++ "pkey")), st0) ∧
    create_request st0 (some missingTermPayload) "t" (fun _ => "u") =
      ((400, errObj ("Missing required RBGA field: " ++ "rbga.field.termCheck")), st0) ∧
    create_request st0 (some maybeTermPayload) "t" (fun _ => "u") =
      ((400, errObj "rbga.field.termCheck must be 'yes' or 'no'"), st0) ∧
    (create_request st0 (some validPayload) "t" (fun _ => "u")).1 =
      (201, JSON.obj [("key", JSON.str (generate_request_key (storedKeys st0)))]) :=
  ⟨C2_full_validation.1 validPayload,
   C2_full_validation.2.1 missingPkeyPayload ["summary"]
     ["issuetype", "applicant", "priority", "sourceSystem", "data"] "pkey"
     (by decide) (by decide) (by decide) (by decide) st0 "t" (fun _ => "u"),
   C2_full_validation.2.2.1 missingTermPayload
     [("rbga.field.description", JSON.str "d"),
      ("rbga.field.workflowType", JSON.str "Parallel"),
      ("rbga.field.approver1", JSON.obj
        [("approvers", JSON.arr
           [JSON.obj [("userid", JSON.str "u"),
                      ("description", JSON.str "m")]])])]
     [] ["rbga.field.description", "rbga.field.workflowType", "rbga.field.approver1"]
     "rbga.field.termCheck"
     (by decide) (by decide) (by decide) (by decide) (by decide) (by decide)
     (by decide) (by decide) st0 "t" (fun _ => "u"),
   C2_full_validation.2.2.2.1 maybeTermPayload
     [("rbga.field.termCheck", JSON.str "maybe"),
      ("rbga.field.description", JSON.str "d"),
      ("rbga.field.workflowType", JSON.str "Parallel"),
      ("rbga.field.approver1", JSON.obj
        [("approvers", JSON.arr
           [JSON.obj [("userid", JSON.str "u"),
                      ("description", JSON.str "m")]])])]
     (by decide) (by decide) (by decide) (by decide) (by decide) (by decide)
     (by decide) st0 "t" (fun _ => "u"),
   C2_full_validation.2.2.2.2 validPayload st0 "t" (fun _ => "u")
     (by decide) (by decide)⟩

/- ## Claim C3 -/

theorem char_toNat_ofNat (m : Nat) (h : m < 55296) : (Char.ofNat m).toNat = m := by
  have hv : m.isValidChar := Or.inl h
  rw [Char.ofNat, dif_pos hv]
  rfl

theorem toUpper_fix (c : Char) : c.toUpper.toUpper = c.toUpper := by
  rw [Char.toUpper, Char.toUpper]
  by_cases h : 97 ≤ c.toNat ∧ c.toNat ≤ 122
  · rw [if_pos h]
    have h2 : (Char.ofNat (c.toNat - 32)).toNat = c.toNat - 32 :=
      char_toNat_ofNat _ (by omega)
    rw [if_neg (by rw [h2]; omega)]
  · rw [if_neg h, if_neg h]

/-- C3.  Draft-create validation: any payload with `summary`, `pkey` and
`applicant` present and `pkey = "RBGA"` — no matter what else it carries,
and with no enum or approver checks on `data` — gets a 201 whose body
holds `success`, `message`, `key`, `status "Draft"` and `created_at`;
the key is `"RBGA-DRAFT-"` followed by the 8-character uppercased token
cut from the fresh uuid string; a payload missing one of the three
fields is refused with a 400 naming the first missing one; and a wrong
`pkey` is refused with a 400 naming it. -/
theorem C3_draft_create :
    (∀ (payload : List (String × JSON)) (st : ServerState) (now us : String),
        hasKey payload "summary" = true → hasKey payload "pkey" = true →
        hasKey payload "applicant" = true →
        getDv payload "pkey" = JSON.str "RBGA" →
        (create_draft_request st (some payload) now us).1 =
          (201, JSON.obj
            [("success", JSON.bool true),
             ("message", JSON.str "RBGA draft request created successfully"),
             ("key", JSON.str (draft_request_key us)),
             ("status", JSON.str "Draft"),
             ("created_at", JSON.str now)])) ∧
    (∀ us : String, 8 ≤ us.data.length →
        draft_request_key us =
          "RBGA-DRAFT-" ++ String.mk ((us.data.take 8).map Char.toUpper) ∧
        ((us.data.take 8).map Char.toUpper).length = 8 ∧
        ∀ c ∈ (us.data.take 8).map Char.toUpper, c.toUpper = c) ∧
    (∀ (payload : List (String × JSON)) (pre post : List String) (f : String),
        payload ≠ [] → ["summary", "pkey", "applicant"] = pre ++ f :: post →
        (∀ g ∈ pre, hasKey payload g = true) → hasKey payload f = false →
        ∀ (st : ServerState) (now us : String),
          create_draft_request st (some payload) now us =
            ((400, errObj ("Missing required field: " ++ f)), st)) ∧
    (∀ (payload : List (String × JSON)),
        hasKey payload "summary" = true → hasKey payload "pkey" = true →
        hasKey payload "applicant" = true →
        getDv payload "pkey" ≠ JSON.str "RBGA" →
        ∀ (st : ServerState) (now us : String),
          create_draft_request st (some payload) now us =
            ((400, errObj "pkey must be 'RBGA'"), st)) := by
  refine ⟨?_, ?_, ?_, ?_⟩
  · intro payload st now us h1 h2 h3 hpk
    have hemp : payload.isEmpty = false := by
      cases payload
      · simp [hasKey, dbLookup] at h1
      · rfl
    have hfm : firstMissing ["summary", "pkey", "applicant"] payload = none :=
      (firstMissing_none_iff _ _).mpr (by simp [List.all_cons, h1, h2, h3])
    simp [create_draft_request, hemp, hfm, hpk]
  · intro us hlen
    refine ⟨rfl, ?_, ?_⟩
    · rw [List.length_map, List.length_take]
      omega
    · intro c hc
      obtain ⟨x, hx, rfl⟩ := List.mem_map.mp hc
      exact toUpper_fix x
  · intro payload pre post f hne hsplit hpre hf st now us
    have hemp : payload.isEmpty = false := by
      cases payload
      · exact absurd rfl hne
      · rfl
    have hfm : firstMissing ["summary", "pkey", "applicant"] payload = some f := by
      rw [hsplit]
      exact firstMissing_first pre post f payload hpre hf
    simp [create_draft_request, hemp, hfm]
  · intro payload h1 h2 h3 hpk st now us
    have hemp : payload.isEmpty = false := by
      cases payload
      · simp [hasKey, dbLookup] at h1
      · rfl
    have hfm : firstMissing ["summary", "pkey", "applicant"] payload = none :=
      (firstMissing_none_iff _ _).mpr (by simp [List.all_cons, h1, h2, h3])
    simp [create_draft_request, hemp, hfm, hpk]

/-- Witness for C3 at concrete inputs: the minimal
`{summary, pkey: "RBGA", applicant}` payload with a 12-character uuid
prefix, a payload missing `applicant`, and one with `pkey = "XYZ"`. -/
theorem C3_draft_create_witness :
    (create_draft_request st0 (some minimalDraftPayload) "t" "ab12cd34-ef0").1 =
      (201, JSON.obj
        [("success", JSON.bool true),
         ("message", JSON.str "RBGA draft request created successfully"),
         ("key", JSON.str (draft_request_key "ab12cd34-ef0")),
         ("status", JSON.str "Draft"),
         ("created_at", JSON.str "t")]) ∧
    (draft_request_key "ab12cd34-ef0" =
       "RBGA-DRAFT-" ++ String.mk ((("ab12cd34-ef0" : String).data.take 8).map
         Char.toUpper) ∧
     ((("ab12cd34-ef0" : String).data.take 8).map Char.toUpper).length = 8 ∧
     ∀ c ∈ (("ab12cd34-ef0" : String).data.take 8).map Char.toUpper,
       c.toUpper = c) ∧
    create_draft_request st0
        (some [("summary", JSON.str "s"), ("pkey", JSON.str "RBGA")]) "t" "u0" =
      ((400, errObj ("Missing required field: " ++ "applicant")), st0) ∧
    create_draft_request st0
        (some [("summary", JSON.str "s"), ("pkey", JSON.str "XYZ"),
               ("applicant", JSON.str "a")]) "t" "u0" =
      ((400, errObj "pkey must be 'RBGA'"), st0) :=
  ⟨C3_draft_create.1 minimalDraftPayload st0 "t" "ab12cd34-ef0"
     (by decide) (by decide) (by decide) (by decide),
   C3_draft_create.2.1 "ab12cd34-ef0" (by decide),
   C3_draft_create.2.2.1
     [("summary", JSON.str "s"), ("pkey", JSON.str "RBGA")]
     ["summary", "pkey"] [] "applicant"
     (by decide) (by decide) (by decide) (by decide) st0 "t" "u0",
   C3_draft_create.2.2.2
     [("summary", JSON.str "s"), ("pkey", JSON.str "XYZ"),
      ("applicant", JSON.str "a")]
     (by decide) (by decide) (by decide) (by decide) st0 "t" "u0"⟩

/- ## Claim C4 -/

/-- C4.  The claimed timeout configuration does not exist in the client:
`WorkOnCLI.get_api_client` passes three positional arguments
(`endpoint, key_id, timeout`) to a `WorkOnAPI.__init__` that accepts only
`base_url` and `key_id`, so the call raises `TypeError` even on the
default configuration — and none of the five outbound HTTP calls the
client builds carries a `timeout=`. -/
theorem C4_no_timeout_support :
    get_api_client cliDefaultConfig = .error () ∧
    (∀ (b s a : String) (d : JSON) (ss : String),
        (create_rbga_request_call b s a d ss).timeout = none) ∧
    (∀ (b s a : String) (d : JSON) (ss : String),
        (create_draft_rbga_request_call b s a d ss).timeout = none) ∧
    (∀ b k : String, (get_request_status_call b k).timeout = none) ∧
    (∀ (b k : String) (cf sf : Option (List String)) (ah : Bool),
        (get_workitem_detail_call b k cf sf ah).timeout = none) ∧
    (∀ (b k u : String) (an : Option String) (sa : Bool),
        (get_attachments_call b k u an sa).timeout = none) :=
  ⟨rfl, fun _ _ _ _ _ => rfl, fun _ _ _ _ _ => rfl, fun _ _ => rfl,
   fun _ _ _ _ _ => rfl, fun _ _ _ _ _ => rfl⟩

/- ## Claim C9 -/

theorem toLower_fix (c : Char) : c.toLower.toLower = c.toLower := by
  rw [Char.toLower, Char.toLower]
  by_cases h : 65 ≤ c.toNat ∧ c.toNat ≤ 90
  · rw [if_pos h]
    have h2 : (Char.ofNat (c.toNat + 32)).toNat = c.toNat + 32 :=
      char_toNat_ofNat _ (by omega)
    rw [if_neg (by rw [h2]; omega)]
  · rw [if_neg h, if_neg h]

/-- C9.  Both client create methods put `applicant.lower()` into the
outbound payload, so the submitted applicant value is always lowercase
(a fixed point of lowercasing) no matter how the caller cased it. -/
theorem C9_applicant_lowercased (summary applicant : String) (data : JSON)
    (source_system : String) :
    dbLookup (create_rbga_request_payload summary applicant data source_system)
      "applicant" = some (JSON.str (pyLowerStr applicant)) ∧
    dbLookup (create_draft_rbga_request_payload summary applicant data
      source_system) "applicant" = some (JSON.str (pyLowerStr applicant)) ∧
    ∀ c ∈ (pyLowerStr applicant).data, c.toLower = c := by
  refine ⟨rfl, rfl, ?_⟩
  intro c hc
  obtain ⟨x, hx, rfl⟩ := List.mem_map.mp hc
  exact toLower_fix x

/-- Witness for C9 at a concrete mixed-case applicant. -/
theorem C9_applicant_lowercased_witness :
    dbLookup (create_rbga_request_payload "s" "John.DOE" JSON.null "X")
      "applicant" = some (JSON.str (pyLowerStr "John.DOE")) ∧
    dbLookup (create_draft_rbga_request_payload "s" "John.DOE" JSON.null "X")
      "applicant" = some (JSON.str (pyLowerStr "John.DOE")) ∧
    Char.toLower 'j' = 'j' :=
  ⟨(C9_applicant_lowercased "s" "John.DOE" JSON.null "X").1,
   (C9_applicant_lowercased "s" "John.DOE" JSON.null "X").2.1,
   (C9_applicant_lowercased "s" "John.DOE" JSON.null "X").2.2 'j' (by decide)⟩

/- ## Claim C6 -/

/-- C6.  Status lookup: every stored key — whatever the record's actual
status or resolution — gets 200 with the same hard-coded five-entry
localized table (one entry per locale tag), the request key and the
constant resolution `"Approved"`; an absent key gets 404. -/
theorem C6_status_fixed :
    (∀ (st : ServerState) (k : String) (r : Request),
        dbLookup st.requests_db k = some r →
        get_status st k = ((200, JSON.obj
          [("status", fixedStatusTable),
           ("requestKey", JSON.str k),
           ("resolution", JSON.str "Approved")]), st)) ∧
    (∃ es : List JSON, fixedStatusTable = JSON.arr es ∧ es.length = 5 ∧
        es.map (fun e => jget e "localeName") =
          [some (JSON.str "es_ES"), some (JSON.str "ja_JP"),
           some (JSON.str "ko_KR"), some (JSON.str "en_UK"),
           some (JSON.str "de_DE")]) ∧
    (∀ (st : ServerState) (k : String),
        dbLookup st.requests_db k = none →
        get_status st k =
          ((404, errObj ("Request with key " ++ k ++ " not found")), st)) := by
  refine ⟨?_, ⟨_, rfl, rfl, by decide⟩, ?_⟩
  · intro st k r h
    simp [get_status, h]
  · intro st k h
    simp [get_status, h]

/-- Witness for C6: the store holding `"RBGA-7"` (an "In Review"-free
record) answers 200 with the fixed table, and the spec's example key
`"RBGA-999999"` answers 404. -/
theorem C6_status_fixed_witness :
    get_status stOne "RBGA-7" = ((200, JSON.obj
      [("status", fixedStatusTable),
       ("requestKey", JSON.str "RBGA-7"),
       ("resolution", JSON.str "Approved")]), stOne) ∧
    get_status stOne "RBGA-999999" =
      ((404, errObj ("Request with key " ++ "RBGA-999999" ++ " not found")),
       stOne) :=
  ⟨C6_status_fixed.1 stOne "RBGA-7" sampleFullRecord (by decide),
   C6_status_fixed.2.2 stOne "RBGA-999999" (by decide)⟩

/- ## Claim C5 -/

/-- Counterexample to C5 as stated: `sendAll` is not tested for
truthiness but lowercased and compared with the string `"true"`.  On a
stored key with zero attachments, the truthy JSON boolean `true` as
`sendAll` does not produce the claimed 200-with-empty-list — `.lower()`
on a boolean raises and the handler answers 500. -/
theorem C5_attachments_cex :
    dbLookup stOne.requests_db "RBGA-7" ≠ none ∧
    (get_workitem_attachments stOne "RBGA-7"
      (some [("sendAll", JSON.bool true)])).1.1 = 500 :=
  ⟨by decide, rfl⟩

/-- C5 (amended).  Attachment retrieval for an existing key: if the
payload's `sendAll` value is a string that lowercases to `"true"`, the
handler answers 200 with every attachment linked to the key and their
count — with zero linked attachments that is 200, count 0 and an empty
list, not 404; if `sendAll` is any other string, the first attachment
matching `attachmentName` by filename or `attachmentId` by id is
returned, 404 when none matches; a non-string `sendAll` raises and
yields 500. -/
theorem C5_attachment_retrieval :
    (∀ (st : ServerState) (k : String) (r : Request)
        (body : Option (List (String × JSON))) (s : String),
        dbLookup st.requests_db k = some r →
        (dbLookup (body.getD []) "sendAll").getD (JSON.str "false") = JSON.str s →
        pyLowerStr s = "true" →
        get_workitem_attachments st k body =
          ((200, JSON.obj
             [("attachments", JSON.arr (attachmentsFor st k)),
              ("count", JSON.num (attachmentsFor st k).length)]), st)) ∧
    (∀ (st : ServerState) (k : String) (r : Request)
        (body : Option (List (String × JSON))) (s : String),
        dbLookup st.requests_db k = some r →
        (dbLookup (body.getD []) "sendAll").getD (JSON.str "false") = JSON.str s →
        pyLowerStr s = "true" → attachmentsFor st k = [] →
        get_workitem_attachments st k body =
          ((200, JSON.obj
             [("attachments", JSON.arr []), ("count", JSON.num 0)]), st)) ∧
    (∀ (st : ServerState) (k : String) (r : Request)
        (body : Option (List (String × JSON))) (s : String),
        dbLookup st.requests_db k = some r →
        (dbLookup (body.getD []) "sendAll").getD (JSON.str "false") = JSON.str s →
        pyLowerStr s ≠ "true" →
        get_workitem_attachments st k body =
          (match (attachmentsFor st k).find?
              (attachmentMatches (getDv (body.getD []) "attachmentName")
                (getDv (body.getD []) "attachmentId")) with
           | none => ((404, errObj "Attachment not found"), st)
           | some a => ((200, JSON.obj [("attachment", a)]), st))) ∧
    (∀ (st : ServerState) (k : String) (r : Request)
        (body : Option (List (String × JSON))),
        dbLookup st.requests_db k = some r →
        (∀ s : String,
          (dbLookup (body.getD []) "sendAll").getD (JSON.str "false") ≠
            JSON.str s) →
        get_workitem_attachments st k body = ((500, internalError), st)) := by
  refine ⟨?_, ?_, ?_, ?_⟩
  · intro st k r body s hk hsend hlow
    simp [get_workitem_attachments, hk, hsend, pyLower, hlow]
  · intro st k r body s hk hsend hlow hempty
    simp [get_workitem_attachments, hk, hsend, pyLower, hlow, hempty]
  · intro st k r body s hk hsend hlow
    simp only [get_workitem_attachments, hk, hsend, pyLower, if_neg hlow]
  · intro st k r body hk hnostr
    cases hv : (dbLookup (body.getD []) "sendAll").getD (JSON.str "false") with
    | str s => exact absurd hv (hnostr s)
    | null => simp [get_workitem_attachments, hk, hv, pyLower]
    | bool b => simp [get_workitem_attachments, hk, hv, pyLower]
    | num n => simp [get_workitem_attachments, hk, hv, pyLower]
    | arr xs => simp [get_workitem_attachments, hk, hv, pyLower]
    | obj fs => simp [get_workitem_attachments, hk, hv, pyLower]

/-- Fixture: the `stOne` store plus one stored attachment linked to
`"RBGA-7"`. -/
def stAtt : ServerState :=
  ⟨[("RBGA-7", sampleFullRecord)],
   [("aid1", { id := "aid1", filename := JSON.str "f.pdf",
               file := JSON.str "B64", request_key := "RBGA-7",
               created_at := "t" })]⟩

/-- Witness for C5 at concrete inputs: `sendAll = "TRUE"` on a key with
zero attachments answers 200 with count 0; `sendAll = "false"` with a
matching `attachmentName` finds the stored attachment; and the truthy
but non-string `sendAll = true` answers 500. -/
theorem C5_attachment_retrieval_witness :
    get_workitem_attachments stOne "RBGA-7" (some [("sendAll", JSON.str "TRUE")]) =
      ((200, JSON.obj
         [("attachments", JSON.arr (attachmentsFor stOne "RBGA-7")),
          ("count", JSON.num (attachmentsFor stOne "RBGA-7").length)]), stOne) ∧
    get_workitem_attachments stOne "RBGA-7" (some [("sendAll", JSON.str "TRUE")]) =
      ((200, JSON.obj [("attachments", JSON.arr []), ("count", JSON.num 0)]),
       stOne) ∧
    get_workitem_attachments stAtt "RBGA-7"
        (some [("sendAll", JSON.str "false"),
               ("attachmentName", JSON.str "f.pdf")]) =
      (match (attachmentsFor stAtt "RBGA-7").find?
          (attachmentMatches
            (getDv ((some [("sendAll", JSON.str "false"),
               ("attachmentName", JSON.str "f.pdf")] :
                 Option (List (String × JSON))).getD []) "attachmentName")
            (getDv ((some [("sendAll", JSON.str "false"),
               ("attachmentName", JSON.str "f.pdf")] :
                 Option (List (String × JSON))).getD []) "attachmentId")) with
       | none => ((404, errObj "Attachment not found"), stAtt)
       | some a => ((200, JSON.obj [("attachment", a)]), stAtt)) ∧
    get_workitem_attachments stOne "RBGA-7" (some [("sendAll", JSON.bool true)]) =
      ((500, internalError), stOne) :=
  ⟨C5_attachment_retrieval.1 stOne "RBGA-7" sampleFullRecord
     (some [("sendAll", JSON.str "TRUE")]) "TRUE"
     (by decide) (by decide) (by decide),
   C5_attachment_retrieval.2.1 stOne "RBGA-7" sampleFullRecord
     (some [("sendAll", JSON.str "TRUE")]) "TRUE"
     (by decide) (by decide) (by decide) (by decide),
   C5_attachment_retrieval.2.2.1 stAtt "RBGA-7" sampleFullRecord
     (some [("sendAll", JSON.str "false"), ("attachmentName", JSON.str "f.pdf")])
     "false" (by decide) (by decide) (by decide),
   C5_attachment_retrieval.2.2.2 stOne "RBGA-7" sampleFullRecord
     (some [("sendAll", JSON.bool true)]) (by decide)
     (fun s h => JSON.noConfusion h)⟩

/- ## Claim C7 -/

theorem dbLookup_append_general {α : Type} (l1 l2 : List (String × α)) (k : String) :
    dbLookup (l1 ++ l2) k =
      (match dbLookup l1 k with
       | some v => some v
       | none => dbLookup l2 k) := by
  induction l1 with
  | nil => simp [dbLookup]
  | cons p rest ih =>
    obtain ⟨k0, v0⟩ := p
    by_cases hk : k0 = k
    · simp [dbLookup, hk]
    · simp only [List.cons_append, dbLookup, if_neg hk]
      exact ih

theorem collectCustom_obj (fs : List JSON) (dfs : List (String × JSON))
    (hhash : ∀ f ∈ fs, pyHashable f = true) :
    ∀ acc : List (String × JSON),
      ∃ res, collectCustom fs (JSON.obj dfs) acc = .ok res ∧
        ∀ s : String, dbLookup res s =
          if JSON.str s ∈ fs ∧ (dbLookup dfs s).isSome then dbLookup dfs s
          else dbLookup acc s := by
  induction fs with
  | nil =>
    intro acc
    refine ⟨acc, rfl, fun s => ?_⟩
    rw [if_neg (by simp)]
  | cons f fs ih =>
    have htail : ∀ g ∈ fs, pyHashable g = true :=
      fun g hg => hhash g (List.mem_cons_of_mem f hg)
    intro acc
    cases f with
    | str s' =>
      cases hl : dbLookup dfs s' with
      | some v =>
        obtain ⟨res, hres, hchar⟩ := ih htail (dbInsert acc s' v)
        refine ⟨res, by simp only [collectCustom, hl, hres], fun s => ?_⟩
        rw [hchar s]
        by_cases hs : s = s'
        · subst hs
          have hsome : (dbLookup dfs s).isSome = true := by rw [hl]; rfl
          by_cases hmem : JSON.str s ∈ fs
          · rw [if_pos ⟨hmem, hsome⟩, if_pos ⟨by simp, hsome⟩]
          · rw [if_neg (by simp [hmem]), if_pos ⟨by simp, hsome⟩,
              dbLookup_dbInsert_self, hl]
        · rw [dbLookup_dbInsert_other _ _ _ _ hs]
          have hiff : (JSON.str s ∈ JSON.str s' :: fs) ↔ (JSON.str s ∈ fs) := by
            simp [hs]
          by_cases hc : JSON.str s ∈ fs ∧ (dbLookup dfs s).isSome
          · rw [if_pos hc, if_pos ⟨hiff.mpr hc.1, hc.2⟩]
          · rw [if_neg hc, if_neg (fun h => hc ⟨hiff.mp h.1, h.2⟩)]
      | none =>
        obtain ⟨res, hres, hchar⟩ := ih htail acc
        refine ⟨res, by simp only [collectCustom, hl, hres], fun s => ?_⟩
        rw [hchar s]
        by_cases hs : s = s'
        · subst hs
          have hnone : (dbLookup dfs s).isSome = false := by rw [hl]; rfl
          rw [if_neg (by simp [hnone]), if_neg (by simp [hnone])]
        · have hiff : (JSON.str s ∈ JSON.str s' :: fs) ↔ (JSON.str s ∈ fs) := by
            simp [hs]
          by_cases hc : JSON.str s ∈ fs ∧ (dbLookup dfs s).isSome
          · rw [if_pos hc, if_pos ⟨hiff.mpr hc.1, hc.2⟩]
          · rw [if_neg hc, if_neg (fun h => hc ⟨hiff.mp h.1, h.2⟩)]
    | arr xs =>
      exact absurd (hhash _ (List.mem_cons_self _ _)) (by simp [pyHashable])
    | obj ofs =>
      exact absurd (hhash _ (List.mem_cons_self _ _)) (by simp [pyHashable])
    | null =>
      obtain ⟨res, hres, hchar⟩ := ih htail acc
      refine ⟨res, by simp only [collectCustom, hres], fun s => ?_⟩
      rw [hchar s]
      have hiff : (JSON.str s ∈ JSON.null :: fs) ↔ (JSON.str s ∈ fs) := by simp
      by_cases hc : JSON.str s ∈ fs ∧ (dbLookup dfs s).isSome
      · rw [if_pos hc, if_pos ⟨hiff.mpr hc.1, hc.2⟩]
      · rw [if_neg hc, if_neg (fun h => hc ⟨hiff.mp h.1, h.2⟩)]
    | bool b =>
      obtain ⟨res, hres, hchar⟩ := ih htail acc
      refine ⟨res, by simp only [collectCustom, hres], fun s => ?_⟩
      rw [hchar s]
      have hiff : (JSON.str s ∈ JSON.bool b :: fs) ↔ (JSON.str s ∈ fs) := by simp
      by_cases hc : JSON.str s ∈ fs ∧ (dbLookup dfs s).isSome
      · rw [if_pos hc, if_pos ⟨hiff.mpr hc.1, hc.2⟩]
      · rw [if_neg hc, if_neg (fun h => hc ⟨hiff.mp h.1, h.2⟩)]
    | num n =>
      obtain ⟨res, hres, hchar⟩ := ih htail acc
      refine ⟨res, by simp only [collectCustom, hres], fun s => ?_⟩
      rw [hchar s]
      have hiff : (JSON.str s ∈ JSON.num n :: fs) ↔ (JSON.str s ∈ fs) := by simp
      by_cases hc : JSON.str s ∈ fs ∧ (dbLookup dfs s).isSome
      · rw [if_pos hc, if_pos ⟨hiff.mpr hc.1, hc.2⟩]
      · rw [if_neg hc, if_neg (fun h => hc ⟨hiff.mp h.1, h.2⟩)]

theorem collectCustom_obj_error (fs : List JSON) (dfs : List (String × JSON))
    (h : ∃ f ∈ fs, pyHashable f = false) :
    ∀ acc : List (String × JSON),
      collectCustom fs (JSON.obj dfs) acc = .error () := by
  induction fs with
  | nil =>
    obtain ⟨f, hf, -⟩ := h
    cases hf
  | cons f fs ih =>
    intro acc
    cases f with
    | arr xs => rfl
    | obj ofs => rfl
    | str s =>
      have h' : ∃ g ∈ fs, pyHashable g = false := by
        obtain ⟨g, hg, hgf⟩ := h
        rcases List.mem_cons.mp hg with rfl | hmem
        · exact absurd hgf (by simp [pyHashable])
        · exact ⟨g, hmem, hgf⟩
      cases hl : dbLookup dfs s with
      | some v =>
        simp only [collectCustom, hl]
        exact ih h' _
      | none =>
        simp only [collectCustom, hl]
        exact ih h' _
    | null =>
      have h' : ∃ g ∈ fs, pyHashable g = false := by
        obtain ⟨g, hg, hgf⟩ := h
        rcases List.mem_cons.mp hg with rfl | hmem
        · exact absurd hgf (by simp [pyHashable])
        · exact ⟨g, hmem, hgf⟩
      simp only [collectCustom]
      exact ih h' _
    | bool b =>
      have h' : ∃ g ∈ fs, pyHashable g = false := by
        obtain ⟨g, hg, hgf⟩ := h
        rcases List.mem_cons.mp hg with rfl | hmem
        · exact absurd hgf (by simp [pyHashable])
        · exact ⟨g, hmem, hgf⟩
      simp only [collectCustom]
      exact ih h' _
    | num n =>
      have h' : ∃ g ∈ fs, pyHashable g = false := by
        obtain ⟨g, hg, hgf⟩ := h
        rcases List.mem_cons.mp hg with rfl | hmem
        · exact absurd hgf (by simp [pyHashable])
        · exact ⟨g, hmem, hgf⟩
      simp only [collectCustom]
      exact ih h' _

/-- C7 (amended).  Detail retrieval for an existing key whose stored
`data` is a mapping: the base response always carries key, summary,
status, resolution and the two timestamps; a non-empty `customFields`
list of hashable values (in context, field-name strings) yields 200
carrying exactly the listed data fields that are present (absent listed
fields silently dropped; possibly an empty customFields object) and
omits the full data map; a `customFields` list containing an unhashable
element (a list or object) raises at the membership test and yields
500; a falsy/absent `customFields` yields 200 with the full data map;
and the stored approval history is appended exactly when the payload's
`approvalHistory` equals `"yes"`. -/
theorem C7_detail_retrieval (st : ServerState) (k : String) (r : Request)
    (dfs : List (String × JSON)) (body : Option (List (String × JSON)))
    (hk : dbLookup st.requests_db k = some r) (hdata : r.data = JSON.obj dfs) :
    (pyTruthy ((dbLookup (body.getD []) "customFields").getD (JSON.arr [])) =
        false →
      get_workitem_detail st k body =
        ((200, JSON.obj (detailBase k r ++ detailHistory (body.getD []) r ++
           [("data", JSON.obj dfs)])), st)) ∧
    (∀ fs : List JSON,
      (dbLookup (body.getD []) "customFields").getD (JSON.arr []) =
          JSON.arr fs →
      fs ≠ [] → (∀ f ∈ fs, pyHashable f = true) →
      ∃ cfs : List (String × JSON),
        get_workitem_detail st k body =
          ((200, JSON.obj (detailBase k r ++ detailHistory (body.getD []) r ++
             [("customFields", JSON.obj cfs)])), st) ∧
        (∀ s : String, dbLookup cfs s =
           if JSON.str s ∈ fs then dbLookup dfs s else none) ∧
        dbLookup (detailBase k r ++ detailHistory (body.getD []) r ++
           [("customFields", JSON.obj cfs)]) "data" = none) ∧
    (∀ fs : List JSON,
      (dbLookup (body.getD []) "customFields").getD (JSON.arr []) =
          JSON.arr fs →
      fs ≠ [] → (∃ f ∈ fs, pyHashable f = false) →
      get_workitem_detail st k body = ((500, internalError), st)) ∧
    (dbLookup (detailBase k r) "key" = some (JSON.str k) ∧
     dbLookup (detailBase k r) "summary" = some r.summary ∧
     dbLookup (detailBase k r) "status" = some (JSON.str r.status) ∧
     dbLookup (detailBase k r) "resolution" = some r.resolution ∧
     dbLookup (detailBase k r) "created_at" = some (JSON.str r.created_at) ∧
     dbLookup (detailBase k r) "updated_at" = some (JSON.str r.updated_at)) ∧
    (∀ tail : List (String × JSON),
      dbLookup (detailBase k r ++ detailHistory (body.getD []) r ++ tail)
          "approvalHistory" =
        if getDv (body.getD []) "approvalHistory" = JSON.str "yes" then
          some (JSON.arr r.approvals)
        else dbLookup tail "approvalHistory") := by
  refine ⟨?_, ?_, ?_, ⟨rfl, rfl, rfl, rfl, rfl, rfl⟩, ?_⟩
  · intro hfalse
    simp only [get_workitem_detail, hk, hfalse, Bool.false_eq_true, if_false]
    rw [hdata]
  · intro fs hfs hne hhash
    have htruthy : pyTruthy (JSON.arr fs) = true := by
      simp [pyTruthy, hne]
    obtain ⟨res, hres, hchar⟩ := collectCustom_obj fs dfs hhash []
    refine ⟨res, ?_, ?_, ?_⟩
    · simp only [get_workitem_detail, hk, hfs, htruthy, if_true, pyIter,
        hdata, hres]
    · intro s
      rw [hchar s]
      by_cases hmem : JSON.str s ∈ fs
      · by_cases hsome : (dbLookup dfs s).isSome = true
        · rw [if_pos ⟨hmem, hsome⟩, if_pos hmem]
        · rw [if_neg (fun h => hsome h.2), if_pos hmem]
          cases hl : dbLookup dfs s with
          | none => rfl
          | some v => rw [hl] at hsome; exact absurd rfl hsome
      · rw [if_neg (fun h => hmem h.1), if_neg hmem]
        rfl
    · rw [detailHistory]
      split <;> rfl
  · intro fs hfs hne hbad
    have htruthy : pyTruthy (JSON.arr fs) = true := by
      simp [pyTruthy, hne]
    have herr := collectCustom_obj_error fs dfs hbad []
    simp only [get_workitem_detail, hk, hfs, htruthy, if_true, pyIter,
      hdata, herr]
  · intro tail
    have hb : dbLookup (detailBase k r) "approvalHistory" = none := rfl
    rw [dbLookup_append_general, dbLookup_append_general, hb, detailHistory]
    by_cases hc : getDv (body.getD []) "approvalHistory" = JSON.str "yes"
    · rw [if_pos hc, if_pos hc]; rfl
    · rw [if_neg hc, if_neg hc]; rfl

/-- Fixture: a draft payload whose `data` is the number `5` (draft
creation accepts it — no data checks). -/
def numDataDraftPayload : List (String × JSON) :=
  [("summary", JSON.str "s"), ("pkey", JSON.str "RBGA"),
   ("applicant", JSON.str "a"), ("data", JSON.num 5)]

/-- Fixture: the store after draft-creating `numDataDraftPayload`. -/
def stNumData : ServerState :=
  (create_draft_request st0 (some numDataDraftPayload) "t" "ab12cd34-ef").2

/-- The key of the record stored in `stNumData`. -/
def numDraftKey : String := draft_request_key "ab12cd34-ef"

/-- Counterexample to C7 as stated: `numDraftKey` exists in the store,
yet detail retrieval with a non-empty `customFields` list answers 500 —
the stored `data` is the number 5, so the membership test raises — and
the response body does not include `summary`, contradicting "the
response always includes key, summary, ...". -/
theorem C7_detail_retrieval_cex :
    dbLookup stNumData.requests_db numDraftKey ≠ none ∧
    (get_workitem_detail stNumData numDraftKey
       (some [("customFields", JSON.arr [JSON.str "x"])])).1.1 = 500 ∧
    jget (get_workitem_detail stNumData numDraftKey
       (some [("customFields", JSON.arr [JSON.str "x"])])).1.2 "summary" = none :=
  ⟨by decide, rfl, rfl⟩

/-- Fixture: a stored record with a data mapping and one approval
entry. -/
def detailRecord : Request :=
  { key := "RBGA-3"
    summary := JSON.str "sum"
    pkey := JSON.str "RBGA"
    issuetype := JSON.str "rbga.issuetype.default"
    applicant := JSON.str "a"
    priority := JSON.str "default"
    sourceSystem := JSON.str "WorkON"
    data := JSON.obj [("rbga.field.description", JSON.str "desc")]
    created_at := "t1"
    updated_at := "t2"
    status := "Submitted"
    resolution := JSON.null
    workflow_stage := "Initial Review"
    approvals := [JSON.str "submit"]
    attachment_ids := none
    is_draft := false }

/-- Fixture: a store holding `detailRecord` under `"RBGA-3"`. -/
def stDetail : ServerState := ⟨[("RBGA-3", detailRecord)], []⟩

/-- Witness for C7 at concrete inputs: an absent `customFields` returns
the full data map; `customFields` listing one present and one absent
field-name string returns 200 with the absent one silently dropped; a
`customFields` list containing a list element yields 500; and the
approval history is appended exactly when `approvalHistory = "yes"`. -/
theorem C7_detail_retrieval_witness :
    (get_workitem_detail stDetail "RBGA-3" none =
      ((200, JSON.obj (detailBase "RBGA-3" detailRecord ++
         detailHistory ((none : Option (List (String × JSON))).getD [])
           detailRecord ++
         [("data", JSON.obj [("rbga.field.description", JSON.str "desc")])])),
       stDetail)) ∧
    (∃ cfs : List (String × JSON),
      get_workitem_detail stDetail "RBGA-3"
          (some [("customFields",
            JSON.arr [JSON.str "rbga.field.description",
                      JSON.str "common.absent"])]) =
        ((200, JSON.obj (detailBase "RBGA-3" detailRecord ++
           detailHistory
             ((some [("customFields",
               JSON.arr [JSON.str "rbga.field.description",
                         JSON.str "common.absent"])] :
                 Option (List (String × JSON))).getD []) detailRecord ++
           [("customFields", JSON.obj cfs)])), stDetail) ∧
      (∀ s : String, dbLookup cfs s =
         if JSON.str s ∈ [JSON.str "rbga.field.description",
                          JSON.str "common.absent"] then
           dbLookup [("rbga.field.description", JSON.str "desc")] s
         else none) ∧
      dbLookup (detailBase "RBGA-3" detailRecord ++
         detailHistory
           ((some [("customFields",
             JSON.arr [JSON.str "rbga.field.description",
                       JSON.str "common.absent"])] :
               Option (List (String × JSON))).getD []) detailRecord ++
         [("customFields", JSON.obj cfs)]) "data" = none) ∧
    (get_workitem_detail stDetail "RBGA-3"
        (some [("customFields", JSON.arr [JSON.arr [JSON.str "a"]])]) =
      ((500, internalError), stDetail)) ∧
    (dbLookup (detailBase "RBGA-3" detailRecord ++
        detailHistory
          ((some [("approvalHistory", JSON.str "yes")] :
              Option (List (String × JSON))).getD []) detailRecord ++ [])
        "approvalHistory" =
      if getDv ((some [("approvalHistory", JSON.str "yes")] :
          Option (List (String × JSON))).getD []) "approvalHistory" =
          JSON.str "yes" then
        some (JSON.arr detailRecord.approvals)
      else dbLookup ([] : List (String × JSON)) "approvalHistory") :=
  ⟨(C7_detail_retrieval stDetail "RBGA-3" detailRecord
      [("rbga.field.description", JSON.str "desc")] none
      (by decide) (by decide)).1 (by decide),
   (C7_detail_retrieval stDetail "RBGA-3" detailRecord
      [("rbga.field.description", JSON.str "desc")]
      (some [("customFields",
        JSON.arr [JSON.str "rbga.field.description", JSON.str "common.absent"])])
      (by decide) (by decide)).2.1
     [JSON.str "rbga.field.description", JSON.str "common.absent"]
     (by decide) (by decide) (by decide),
   (C7_detail_retrieval stDetail "RBGA-3" detailRecord
      [("rbga.field.description", JSON.str "desc")]
      (some [("customFields", JSON.arr [JSON.arr [JSON.str "a"]])])
      (by decide) (by decide)).2.2.1
     [JSON.arr [JSON.str "a"]] (by decide) (by decide)
     ⟨JSON.arr [JSON.str "a"], List.mem_cons_self _ _, rfl⟩,
   (C7_detail_retrieval stDetail "RBGA-3" detailRecord
      [("rbga.field.description", JSON.str "desc")]
      (some [("approvalHistory", JSON.str "yes")])
      (by decide) (by decide)).2.2.2.2 []⟩

/- ## Claim C8 -/

theorem get_status_frame (st : ServerState) (k : String) :
    (get_status st k).2 = st := by
  unfold get_status
  split <;> rfl

theorem get_workitem_detail_frame (st : ServerState) (k : String)
    (b : Option (List (String × JSON))) :
    (get_workitem_detail st k b).2 = st := by
  unfold get_workitem_detail
  split
  · rfl
  · dsimp only
    split
    · split
      · rfl
      · split <;> rfl
    · rfl

theorem get_workitem_attachments_frame (st : ServerState) (k : String)
    (b : Option (List (String × JSON))) :
    (get_workitem_attachments st k b).2 = st := by
  unfold get_workitem_attachments
  split
  · rfl
  · dsimp only
    split
    · rfl
    · split
      · rfl
      · split <;> rfl

theorem create_draft_request_preserves (st : ServerState)
    (body : Option (List (String × JSON))) (now us : String)
    (k : String) (r : Request)
    (hk : dbLookup st.requests_db k = some r)
    (hfresh : dbLookup st.requests_db (draft_request_key us) = none) :
    dbLookup (create_draft_request st body now us).2.requests_db k = some r := by
  have hne : k ≠ draft_request_key us := by
    intro heq
    rw [heq, hfresh] at hk
    cases hk
  rcases body with _ | payload
  · simpa [create_draft_request]
  by_cases hemp : payload.isEmpty
  · simpa [create_draft_request, hemp]
  cases hmiss : firstMissing ["summary", "pkey", "applicant"] payload with
  | some f => simpa [create_draft_request, hemp, hmiss]
  | none =>
    by_cases hpk : getDv payload "pkey" = JSON.str "RBGA"
    · simp only [create_draft_request, hemp, Bool.false_eq_true, if_false,
        hmiss, ne_eq, hpk, not_true_eq_false]
      rw [dbLookup_dbInsert_other _ _ _ _ hne]
      exact hk
    · simpa [create_draft_request, hemp, hmiss, hpk]

/-- C8.  Store immutability outside creation: status lookup, detail
retrieval, attachment retrieval, the template, request listing and the
health check leave the whole state (request store and attachment store)
unchanged; and neither create operation modifies or removes an existing
request record — the full create inserts only its provably fresh
generated key, and the draft create only its fresh draft key. -/
theorem C8_store_immutability :
    (∀ (st : ServerState) (k : String), (get_status st k).2 = st) ∧
    (∀ (st : ServerState) (k : String) (b : Option (List (String × JSON))),
        (get_workitem_detail st k b).2 = st) ∧
    (∀ (st : ServerState) (k : String) (b : Option (List (String × JSON))),
        (get_workitem_attachments st k b).2 = st) ∧
    (∀ st : ServerState, (get_rbga_template st).2 = st) ∧
    (∀ (st : ServerState) (sf pf : Option String),
        (list_requests st sf pf).2 = st) ∧
    (∀ (st : ServerState) (now : String), (health_check st now).2 = st) ∧
    (∀ (st : ServerState) (body : Option (List (String × JSON))) (now : String)
        (uuid : Nat → String) (k : String) (r : Request),
        dbLookup st.requests_db k = some r →
        dbLookup (create_request st body now uuid).2.requests_db k = some r) ∧
    (∀ (st : ServerState) (body : Option (List (String × JSON))) (now us : String)
        (k : String) (r : Request),
        dbLookup st.requests_db k = some r →
        dbLookup st.requests_db (draft_request_key us) = none →
        dbLookup (create_draft_request st body now us).2.requests_db k = some r) :=
  ⟨get_status_frame, get_workitem_detail_frame, get_workitem_attachments_frame,
   fun _ => rfl, fun _ _ _ => rfl, fun _ _ => rfl,
   fun st body now uuid k r hk => create_request_preserves st body now uuid k r hk,
   fun st body now us k r hk hfresh =>
     create_draft_request_preserves st body now us k r hk hfresh⟩

/-- Witness for C8 at concrete inputs: the read-only endpoints leave
`stOne` untouched, a full create on top of `stOne` preserves the
`"RBGA-7"` record, and so does a draft create with a fresh token. -/
theorem C8_store_immutability_witness :
    (get_status stOne "RBGA-7").2 = stOne ∧
    (get_workitem_detail stOne "RBGA-7" none).2 = stOne ∧
    (get_workitem_attachments stOne "RBGA-7" none).2 = stOne ∧
    (get_rbga_template stOne).2 = stOne ∧
    (list_requests stOne (some "Submitted") none).2 = stOne ∧
    (health_check stOne "t").2 = stOne ∧
    dbLookup (create_request stOne (some validPayload) "t"
        (fun _ => "u")).2.requests_db "RBGA-7" = some sampleFullRecord ∧
    dbLookup (create_draft_request stOne (some minimalDraftPayload) "t"
        "zz99yy88-x").2.requests_db "RBGA-7" = some sampleFullRecord :=
  ⟨C8_store_immutability.1 stOne "RBGA-7",
   C8_store_immutability.2.1 stOne "RBGA-7" none,
   C8_store_immutability.2.2.1 stOne "RBGA-7" none,
   C8_store_immutability.2.2.2.1 stOne,
   C8_store_immutability.2.2.2.2.1 stOne (some "Submitted") none,
   C8_store_immutability.2.2.2.2.2.1 stOne "t",
   C8_store_immutability.2.2.2.2.2.2.1 stOne (some validPayload) "t"
     (fun _ => "u") "RBGA-7" sampleFullRecord (by decide),
   C8_store_immutability.2.2.2.2.2.2.2 stOne (some minimalDraftPayload) "t"
     "zz99yy88-x" "RBGA-7" sampleFullRecord (by decide) (by decide)⟩
